import Mathlib

/-! # Verification of the Vulkan descriptor-set / pipeline cache subsystem

Shallow embedding of `VuklanDescriptorSetCache::createDescriptorSets` and
`VuklanDescriptorSetCache::bindDescriptors` (source file `part_000`), together
with the key/hash scaffolding declared in `VulkanPipelineCache.h`.

Handles (`VkBuffer`, `VkDescriptorSet`, `VkSampler`, `VkImageView`,
`VkDescriptorPool`, `VkPipelineLayout`) are modelled as `Nat`, with `0` playing
the role of `VK_NULL_HANDLE`.  Machine counters (`uint32_t`) are `Nat` reduced
modulo `2^32` at the points where the C++ code can overflow.  Vulkan API calls
made by the cache are recorded in an explicit trace (`VkCall`); the outcome of
`vkAllocateDescriptorSets` is an input (`Option (List Nat)`, `none` meaning
`VK_ERROR_*`), since it depends on the driver.
-/

namespace FilamentVk

/-- `VulkanPipelineCache::DESCRIPTOR_TYPE_COUNT` (uniforms, samplers, input
attachments). -/
def DESCRIPTOR_TYPE_COUNT : Nat := 3

/-- `UBUFFER_BINDING_COUNT = Program::UNIFORM_BINDING_COUNT`; equals 10, from the
static offset asserts on `DescriptorKey` (`offsetof(samplers) == 80`, eight
bytes per `VkBuffer`). -/
def UBUFFER_BINDING_COUNT : Nat := 10

/-- `SAMPLER_BINDING_COUNT = MAX_SAMPLER_COUNT`; equals 62, from
`(1568 - 80) / 24` in the `DescriptorKey` offset asserts. -/
def SAMPLER_BINDING_COUNT : Nat := 62

/-- `VulkanPipelineCache::INPUT_ATTACHMENT_COUNT`. -/
def INPUT_ATTACHMENT_COUNT : Nat := 1

/-- `VulkanPipelineCache::INITIAL_DESCRIPTOR_SET_POOL_SIZE`. -/
def INITIAL_DESCRIPTOR_SET_POOL_SIZE : Nat := 512

/-- The cache's internal 32-bit "whole buffer" sentinel ("We store size with 32
bits, so our WHOLE sentinel is different from Vk"). -/
def WHOLE_SIZE : Nat := 4294967295

/-- The Vulkan API sentinel `VK_WHOLE_SIZE` (`~0ULL`). -/
def VK_WHOLE_SIZE : Nat := 18446744073709551615

/-- Modulus of a `uint32_t`. -/
def U32_MOD : Nat := 4294967296

/-- `VuklanDescriptorSetCache::DescriptorImageInfo`: a `VkDescriptorImageInfo`
with an explicit, zeroed padding word (so the enclosing key has no implicit
padding). -/
structure DescriptorImageInfo where
  sampler : Nat
  imageView : Nat
  imageLayout : Nat
  padding : Nat
deriving DecidableEq, Repr

/-- The all-zero `DescriptorImageInfo` (zero-initialized slot). -/
def zeroImageInfo : DescriptorImageInfo :=
  { sampler := 0, imageView := 0, imageLayout := 0, padding := 0 }

/-- The API-side `VkDescriptorImageInfo` (no padding word). -/
structure VkDescriptorImageInfo where
  sampler : Nat
  imageView : Nat
  imageLayout : Nat
deriving DecidableEq, Repr

/-- `DescriptorImageInfo::operator VkDescriptorImageInfo` — the padding word is
dropped. -/
def DescriptorImageInfo.toVk (d : DescriptorImageInfo) : VkDescriptorImageInfo :=
  { sampler := d.sampler, imageView := d.imageView, imageLayout := d.imageLayout }

/-- `VuklanDescriptorSetCache::DescriptorKey`: all Vulkan state comprising a
bound descriptor set.  The C++ arrays are fixed-size; here each list has the
corresponding `*_BINDING_COUNT` length in every state we build, and the loops
below index with `getD`, matching the fixed bounds of the C++ loops. -/
structure DescriptorKey where
  uniformBuffers : List Nat
  samplers : List DescriptorImageInfo
  inputAttachments : List DescriptorImageInfo
  uniformBufferOffsets : List Nat
  uniformBufferSizes : List Nat
deriving DecidableEq, Repr

/-- The zero-initialized `DescriptorKey` (`mDescriptorRequirements = {}` /
`mBoundDescriptor = {}` default state). -/
def zeroDescriptorKey : DescriptorKey :=
  { uniformBuffers := List.replicate UBUFFER_BINDING_COUNT 0,
    samplers := List.replicate SAMPLER_BINDING_COUNT zeroImageInfo,
    inputAttachments := List.replicate INPUT_ATTACHMENT_COUNT zeroImageInfo,
    uniformBufferOffsets := List.replicate UBUFFER_BINDING_COUNT 0,
    uniformBufferSizes := List.replicate UBUFFER_BINDING_COUNT 0 }

/-- `VkDescriptorBufferInfo`. -/
structure VkDescriptorBufferInfo where
  buffer : Nat
  offset : Nat
  range : Nat
deriving DecidableEq, Repr

/-- The descriptor types written by this cache. -/
inductive VkDescriptorType where
  | uniformBuffer
  | combinedImageSampler
  | inputAttachment
deriving DecidableEq, Repr

/-- `VkWriteDescriptorSet`, with the `pBufferInfo` / `pImageInfo` pointers
modelled as the pointed-to payloads (`none` = `nullptr`). -/
structure VkWriteDescriptorSet where
  dstSet : Nat
  dstBinding : Nat
  dstArrayElement : Nat
  descriptorCount : Nat
  descriptorType : VkDescriptorType
  bufferInfo : Option VkDescriptorBufferInfo
  imageInfo : Option VkDescriptorImageInfo
deriving DecidableEq, Repr

/-- `VuklanDescriptorSetCache::DescriptorCacheEntry`: a group of descriptor
sets bound simultaneously (`handles` has length `DESCRIPTOR_TYPE_COUNT`). -/
structure DescriptorCacheEntry where
  handles : List Nat
  lastUsed : Nat
  pipelineLayout : Nat
  id : Nat
deriving DecidableEq, Repr

/-- `VulkanPipelineCache::PipelineLayoutCacheEntry`: pipeline-layout handle,
its three descriptor-set layouts, and the three reclaim arenas (one per
binding type). -/
structure PipelineLayoutCacheEntry where
  handle : Nat
  lastUsed : Nat
  descriptorSetLayouts : List Nat
  descriptorSetArenas : List (List Nat)
deriving DecidableEq, Repr

/-- Association-list lookup with decidable key equality; models lookup in
`tsl::robin_map` / `std::unordered_map` (keys are unique in every map the code
builds). -/
def alookup {α β : Type} [DecidableEq α] (m : List (α × β)) (k : α) : Option β :=
  match m with
  | [] => none
  | p :: rest => if p.1 = k then some p.2 else alookup rest k

/-- The cache state: the fields of `VuklanDescriptorSetCache` (and of its base
`VulkanPipelineCache`) that `createDescriptorSets` / `bindDescriptors` touch.
Maps are association lists with unique keys. -/
structure CacheState where
  /-- `mDescriptorCacheEntryCount` (`uint32_t`). -/
  mDescriptorCacheEntryCount : Nat
  /-- `mDescriptorSets : DescriptorMap`. -/
  mDescriptorSets : List (DescriptorKey × DescriptorCacheEntry)
  /-- `mDescriptorResources : DescriptorResourceMap`; each
  `VulkanAcquireOnlyResourceManager` is the list of resource handles it has
  acquired. -/
  mDescriptorResources : List (Nat × List Nat)
  /-- `mDescriptorPoolSize`. -/
  mDescriptorPoolSize : Nat
  /-- `mDescriptorArenasCount` (`uint32_t`). -/
  mDescriptorArenasCount : Nat
  /-- `mDescriptorPool` handle. -/
  mDescriptorPool : Nat
  /-- `mExtinctDescriptorPools`. -/
  mExtinctDescriptorPools : List Nat
  /-- `mExtinctDescriptorBundles`. -/
  mExtinctDescriptorBundles : List DescriptorCacheEntry
  /-- `mDummyBufferWriteInfo`: the pre-built dummy write pointing at the
  placeholder buffer. -/
  mDummyBufferWriteInfo : VkWriteDescriptorSet
  /-- `mDescriptorRequirements`. -/
  mDescriptorRequirements : DescriptorKey
  /-- `mBoundDescriptor`. -/
  mBoundDescriptor : DescriptorKey
  /-- `mCurrentTime` (flush-count timestamp). -/
  mCurrentTime : Nat
  /-- `mPipelineLayouts : PipelineLayoutMap`, keyed by the 128-bit
  `PipelineLayoutKey` value. -/
  mPipelineLayouts : List (Nat × PipelineLayoutCacheEntry)
  /-- `mPipelineRequirements.layout`. -/
  mPipelineRequirementsLayout : Nat
  /-- `mPipelineBoundResources` (the pipeline-bound resource tracker). -/
  mPipelineBoundResources : List Nat
deriving DecidableEq, Repr

/-- Trace of Vulkan-level actions performed by a cache operation. -/
inductive VkCall where
  /-- A `growDescriptorPool()` growth event. -/
  | growPool
  /-- A `vkAllocateDescriptorSets` call on the given pool; `ok` records whether
  it returned `VK_SUCCESS`. -/
  | allocateDescriptorSets (pool : Nat) (ok : Bool)
  /-- A `vkUpdateDescriptorSets` call carrying the batched writes. -/
  | updateDescriptorSets (writes : List VkWriteDescriptorSet)
  /-- A `vkCmdBindDescriptorSets` call with the pipeline-layout handle and the
  `DESCRIPTOR_TYPE_COUNT` set handles. -/
  | cmdBindDescriptorSets (layout : Nat) (handles : List Nat)
deriving DecidableEq, Repr

/-- In-place update of the value stored at key `k` (the C++ code mutates map
entries through pointers/iterators); entries with other keys are untouched,
and a missing key is a no-op. -/
def updateAt {α β : Type} [DecidableEq α] (m : List (α × β)) (k : α) (g : β → β) :
    List (α × β) :=
  m.map fun p => if p.1 = k then (p.1, g p.2) else p

/-- Update the `lastUsed` stamp of the map entry with the given key (the write
through `descriptorIter.value()` / the `cacheEntry` pointer in the C++ code). -/
def setLastUsed (m : List (DescriptorKey × DescriptorCacheEntry)) (k : DescriptorKey)
    (t : Nat) : List (DescriptorKey × DescriptorCacheEntry) :=
  updateAt m k fun e => { e with lastUsed := t }

/-- Modelled from the spec: `getOrCreatePipelineLayout` (its body is not in the
source excerpt; only its declaration is).  Per spec §4.2, it returns the layout
cache entry for the current `mPipelineRequirements.layout` key, creating on a
miss the descriptor-set layout objects (one per binding class), a combined
pipeline-layout object, and the three reclaim arenas in an empty state.  The
created Vulkan handles are opaque; we pick deterministic fresh values for
them. -/
def freshLayoutEntry (s : CacheState) : PipelineLayoutCacheEntry :=
  { handle := s.mPipelineLayouts.length + 1,
    lastUsed := s.mCurrentTime,
    descriptorSetLayouts := [0, 1, 2],
    descriptorSetArenas := [[], [], []] }

/-- Modelled from the spec: lookup-or-create on the pipeline-layout map (see
`freshLayoutEntry` for the created entry). -/
def getOrCreatePipelineLayout (s : CacheState) : PipelineLayoutCacheEntry × CacheState :=
  match alookup s.mPipelineLayouts s.mPipelineRequirementsLayout with
  | some e => (e, s)
  | none =>
    (freshLayoutEntry s, { s with
      mPipelineLayouts :=
        s.mPipelineLayouts ++ [(s.mPipelineRequirementsLayout, freshLayoutEntry s)] })

/-- Modelled from the spec: `growDescriptorPool` (its body is not in the source
excerpt; only its declaration is).  Per spec §3 and §4.3-4.4, a growth event
constructs a new, strictly larger pool and moves the old pool plus all
descriptor sets allocated from it to the extinct lists for deferred
destruction: the active entries of `mDescriptorSets` go to
`mExtinctDescriptorBundles` and the map is emptied, while the dormant sets
sitting in the reclaim arenas die with the old pool, so every arena is cleared
(`clearArenas`) and `mDescriptorArenasCount` drops to zero.  The fresh pool
handle is opaque. -/
def clearArenas (le : PipelineLayoutCacheEntry) : PipelineLayoutCacheEntry :=
  { le with descriptorSetArenas := List.replicate DESCRIPTOR_TYPE_COUNT [] }

def growDescriptorPool (s : CacheState) : CacheState :=
  { s with
    mDescriptorPoolSize := s.mDescriptorPoolSize * 2,
    mExtinctDescriptorPools := s.mExtinctDescriptorPools ++ [s.mDescriptorPool],
    mDescriptorPool := s.mDescriptorPool + 1,
    mPipelineLayouts := s.mPipelineLayouts.map fun p => (p.1, clearArenas p.2),
    mDescriptorArenasCount := 0,
    mExtinctDescriptorBundles := s.mExtinctDescriptorBundles ++ s.mDescriptorSets.map Prod.snd,
    mDescriptorSets := [] }

/-- The descriptor write emitted for uniform-buffer binding slot `binding`
(first loop of the write phase in `createDescriptorSets`).  An active slot
(non-null buffer in the requirements) gets a fresh uniform-buffer write whose
range translates the internal `WHOLE_SIZE` sentinel to `VK_WHOLE_SIZE`; an
inactive slot gets a copy of `mDummyBufferWriteInfo`.  In both branches the
loop then sets `dstSet` to the uniform descriptor set and `dstBinding` to the
slot. -/
def uniformWrite (req : DescriptorKey) (dummy : VkWriteDescriptorSet) (h0 : Nat)
    (binding : Nat) : VkWriteDescriptorSet :=
  if req.uniformBuffers.getD binding 0 ≠ 0 then
    let range0 := req.uniformBufferSizes.getD binding 0
    { dstSet := h0,
      dstBinding := binding,
      dstArrayElement := 0,
      descriptorCount := 1,
      descriptorType := VkDescriptorType.uniformBuffer,
      bufferInfo := some
        { buffer := req.uniformBuffers.getD binding 0,
          offset := req.uniformBufferOffsets.getD binding 0,
          range := if range0 = WHOLE_SIZE then VK_WHOLE_SIZE else range0 },
      imageInfo := none }
  else
    { dummy with dstSet := h0, dstBinding := binding }

/-- The descriptor write emitted for an active sampler binding slot (second
loop of the write phase). -/
def samplerWrite (req : DescriptorKey) (h1 : Nat) (binding : Nat) : VkWriteDescriptorSet :=
  { dstSet := h1,
    dstBinding := binding,
    dstArrayElement := 0,
    descriptorCount := 1,
    descriptorType := VkDescriptorType.combinedImageSampler,
    bufferInfo := none,
    imageInfo := some (req.samplers.getD binding zeroImageInfo).toVk }

/-- The descriptor write emitted for an active input-attachment binding slot
(third loop of the write phase). -/
def inputAttachmentWrite (req : DescriptorKey) (h2 : Nat) (binding : Nat) :
    VkWriteDescriptorSet :=
  { dstSet := h2,
    dstBinding := binding,
    dstArrayElement := 0,
    descriptorCount := 1,
    descriptorType := VkDescriptorType.inputAttachment,
    bufferInfo := none,
    imageInfo := some (req.inputAttachments.getD binding zeroImageInfo).toVk }

/-- The full batched write list of `createDescriptorSets`: one write per
uniform slot (active or dummy), then one write per *active* sampler slot, then
one write per *active* input-attachment slot, in loop order.  `handles` is the
`DESCRIPTOR_TYPE_COUNT`-element handle array of the new entry. -/
def buildWrites (req : DescriptorKey) (dummy : VkWriteDescriptorSet)
    (handles : List Nat) : List VkWriteDescriptorSet :=
  ((List.range UBUFFER_BINDING_COUNT).map fun b =>
      uniformWrite req dummy (handles.getD 0 0) b)
  ++ ((List.range SAMPLER_BINDING_COUNT).filterMap fun b =>
      if (req.samplers.getD b zeroImageInfo).sampler ≠ 0 then
        some (samplerWrite req (handles.getD 1 0) b)
      else none)
  ++ ((List.range INPUT_ATTACHMENT_COUNT).filterMap fun b =>
      if (req.inputAttachments.getD b zeroImageInfo).imageView ≠ 0 then
        some (inputAttachmentWrite req (handles.getD 2 0) b)
      else none)

/-- Result of `createDescriptorSets`: the returned entry pointer (`none` =
`nullptr`), the new cache state, and the Vulkan calls performed. -/
structure CreateResult where
  entry : Option DescriptorCacheEntry
  state : CacheState
  calls : List VkCall
deriving DecidableEq, Repr

/-- Tail of `createDescriptorSets` after the handles have been obtained: the
write phase (`vkUpdateDescriptorSets` of the batched writes) followed by
`mDescriptorSets.emplace(mDescriptorRequirements, entry)`, which inserts only
if the key is absent and returns the entry stored at the key. -/
def finishCreate (s : CacheState) (entry : DescriptorCacheEntry)
    (preCalls : List VkCall) : CreateResult :=
  let writes := buildWrites s.mDescriptorRequirements s.mDummyBufferWriteInfo entry.handles
  match alookup s.mDescriptorSets s.mDescriptorRequirements with
  | some existing =>
    { entry := some existing, state := s,
      calls := preCalls ++ [VkCall.updateDescriptorSets writes] }
  | none =>
    { entry := some entry,
      state := { s with
        mDescriptorSets := s.mDescriptorSets ++ [(s.mDescriptorRequirements, entry)] },
      calls := preCalls ++ [VkCall.updateDescriptorSets writes] }

/-- `VuklanDescriptorSetCache::createDescriptorSets`.  `alloc` is the outcome
of the (single, possible) `vkAllocateDescriptorSets` call: `some hs` yields the
`DESCRIPTOR_TYPE_COUNT` fresh handles, `none` is an allocation failure. -/
def createDescriptorSets (s0 : CacheState) (alloc : Option (List Nat)) : CreateResult :=
  let glr := getOrCreatePipelineLayout s0
  let layoutCacheEntry := glr.1
  let s1 := glr.2
  let entry0 : DescriptorCacheEntry :=
    { handles := List.replicate DESCRIPTOR_TYPE_COUNT 0,
      lastUsed := 0,
      pipelineLayout := s1.mPipelineRequirementsLayout,
      id := s1.mDescriptorCacheEntryCount }
  let s2 := { s1 with
    mDescriptorCacheEntryCount := (s1.mDescriptorCacheEntryCount + 1) % U32_MOD }
  if (layoutCacheEntry.descriptorSetArenas.getD 0 []).isEmpty then
    let s3 :=
      if s2.mDescriptorSets.length + s2.mDescriptorArenasCount + 1 > s2.mDescriptorPoolSize
      then growDescriptorPool s2 else s2
    let preCalls :=
      if s2.mDescriptorSets.length + s2.mDescriptorArenasCount + 1 > s2.mDescriptorPoolSize
      then [VkCall.growPool] else []
    match alloc with
    | none =>
      { entry := none, state := s3,
        calls := preCalls ++ [VkCall.allocateDescriptorSets s3.mDescriptorPool false] }
    | some hs =>
      finishCreate s3 { entry0 with handles := hs }
        (preCalls ++ [VkCall.allocateDescriptorSets s3.mDescriptorPool true])
  else
    let handles := layoutCacheEntry.descriptorSetArenas.map fun a => a.getLastD 0
    let newArenas := layoutCacheEntry.descriptorSetArenas.map fun a => a.dropLast
    let s3 := { s2 with
      mPipelineLayouts := updateAt s2.mPipelineLayouts s2.mPipelineRequirementsLayout
        fun e => { e with descriptorSetArenas := newArenas },
      mDescriptorArenasCount := (s2.mDescriptorArenasCount + (U32_MOD - 1)) % U32_MOD }
    finishCreate s3 { entry0 with handles := handles } []

/-- Result of `bindDescriptors`: its boolean return, the new cache state, and
the Vulkan calls performed. -/
structure BindResult where
  ok : Bool
  state : CacheState
  calls : List VkCall
deriving DecidableEq, Repr

/-- `VuklanDescriptorSetCache::bindDescriptors`.  The fast path (`DescEqual` on
`mBoundDescriptor` vs `mDescriptorRequirements`, guarded by a non-empty cache)
only refreshes the matching entry's timestamp.  Otherwise the entry is looked
up or created, its timestamp refreshed, the bound key recorded, the
pipeline-bound resources acquired into the per-entry tracker (lazily created
on first use, keyed by the entry id), and `vkCmdBindDescriptorSets` issued.
`bindTail` is the code after the `cacheEntry == nullptr` check: timestamp
refresh, bound-key update, resource acquisition and the bind call. -/
def bindTail (s1 : CacheState) (cacheEntry : DescriptorCacheEntry)
    (preCalls : List VkCall) : BindResult :=
  let s2 := { s1 with
    mDescriptorSets := setLastUsed s1.mDescriptorSets s1.mDescriptorRequirements
      s1.mCurrentTime,
    mBoundDescriptor := s1.mDescriptorRequirements }
  let s3 :=
    match alookup s2.mDescriptorResources cacheEntry.id with
    | some _ => s2
    | none => { s2 with
        mDescriptorResources := s2.mDescriptorResources ++ [(cacheEntry.id, [])] }
  let s4 := { s3 with
    mDescriptorResources := updateAt s3.mDescriptorResources cacheEntry.id
      fun r => s3.mPipelineBoundResources ++ r }
  let glr := getOrCreatePipelineLayout s4
  { ok := true, state := glr.2,
    calls := preCalls
      ++ [VkCall.cmdBindDescriptorSets glr.1.handle cacheEntry.handles] }

def bindDescriptors (s : CacheState) (alloc : Option (List Nat)) : BindResult :=
  let descriptorIter := alookup s.mDescriptorSets s.mDescriptorRequirements
  if s.mBoundDescriptor = s.mDescriptorRequirements ∧ s.mDescriptorSets.isEmpty = false then
    { ok := true,
      state := { s with
        mDescriptorSets := setLastUsed s.mDescriptorSets s.mDescriptorRequirements
          s.mCurrentTime },
      calls := [] }
  else
    let createRes : CreateResult :=
      match descriptorIter with
      | some e => { entry := some e, state := s, calls := [] }
      | none => createDescriptorSets s alloc
    match createRes.entry with
    | none => { ok := false, state := createRes.state, calls := createRes.calls }
    | some cacheEntry => bindTail createRes.state cacheEntry createRes.calls

/-! ## Device-side view of descriptor-set contents

`vkUpdateDescriptorSets` overwrites slots of descriptor sets that live on the
device.  To reason about staleness across arena reuse we model the device-side
contents as a function from (set handle, binding) to the payload last written
there, and apply the batched write list to it. -/

/-- The payload stored in one descriptor slot: the buffer info and image info
carried by the last write to it. -/
structure SlotPayload where
  bufferInfo : Option VkDescriptorBufferInfo
  imageInfo : Option VkDescriptorImageInfo
deriving DecidableEq, Repr

/-- Device-side contents: descriptor-set handle and binding index to payload. -/
def DeviceContents : Type := Nat → Nat → SlotPayload

/-- Whether a write targets the given (set, binding) slot. -/
def targets (w : VkWriteDescriptorSet) (ds b : Nat) : Prop :=
  w.dstSet = ds ∧ w.dstBinding = b

instance (w : VkWriteDescriptorSet) (ds b : Nat) : Decidable (targets w ds b) := by
  unfold targets
  infer_instance

/-- Effect of a single `VkWriteDescriptorSet` on the device contents
(`descriptorCount` is always 1 in this cache). -/
def applyWrite (g : DeviceContents) (w : VkWriteDescriptorSet) : DeviceContents :=
  fun ds b =>
    if targets w ds b then { bufferInfo := w.bufferInfo, imageInfo := w.imageInfo }
    else g ds b

/-- Effect of a batched `vkUpdateDescriptorSets` call, applied in order. -/
def applyWrites (g : DeviceContents) (ws : List VkWriteDescriptorSet) : DeviceContents :=
  ws.foldl applyWrite g

/-! ## Key hashing and equality (`MurmurHashFn`, `DescEqual`, `PipelineEqual`)

The bodies of `DescEqual::operator()`, `PipelineEqual::operator()` and
`utils::hash::MurmurHashFn` are not in the source excerpt (only the `using` /
functor declarations in the headers are).  They are modelled from the spec:
"two keys compare equal iff every field is bit-identical" and "hash/equality
consistency across padding bytes" — equality and hash are both computed over
the full byte image of the key, here represented as its little-endian sequence
of 32-bit words. -/

/-- Truncation to a `uint32_t`. -/
def u32 (x : Nat) : Nat := x % U32_MOD

/-- 32-bit rotate left by `r` (for `0 < r < 32`, on `x < 2^32`). -/
def rotl32 (x r : Nat) : Nat := u32 (x <<< r) ||| (x >>> (32 - r))

/-- Modelled from the spec: one round of `utils::hash::murmur3` — mix one key
word into the running hash. -/
def murmurRound (h k : Nat) : Nat :=
  let k1 := u32 (k * 0xcc9e2d51)
  let k2 := rotl32 k1 15
  let k3 := u32 (k2 * 0x1b873593)
  let h1 := h ^^^ k3
  let h2 := rotl32 h1 13
  u32 (h2 * 5 + 0xe6546b64)

/-- Modelled from the spec: `utils::hash::murmur3(key, wordCount, 0)` as used by
`MurmurHashFn` — mix every 32-bit word of the key image, then finalize. -/
def murmur3 (words : List Nat) : Nat :=
  let h0 := words.foldl murmurRound 0
  let h1 := h0 ^^^ u32 words.length
  let h2 := h1 ^^^ (h1 >>> 16)
  let h3 := u32 (h2 * 0x85ebca6b)
  let h4 := h3 ^^^ (h3 >>> 13)
  let h5 := u32 (h4 * 0xc2b2ae35)
  h5 ^^^ (h5 >>> 16)

/-- Little-endian 32-bit word image of a 64-bit handle. -/
def words64 (x : Nat) : List Nat := [u32 x, u32 (x >>> 32)]

/-- Byte image (as 32-bit words) of a `DescriptorImageInfo`: 64-bit sampler,
64-bit image view, 32-bit layout, explicit 32-bit padding word. -/
def DescriptorImageInfo.words (d : DescriptorImageInfo) : List Nat :=
  words64 d.sampler ++ words64 d.imageView ++ [u32 d.imageLayout, u32 d.padding]

/-- Modelled from the spec: the full byte image of a `DescriptorKey` (1672
bytes = 418 words), in declaration order, over which `DescHashFn` and
`DescEqual` operate. -/
def DescriptorKey.words (k : DescriptorKey) : List Nat :=
  (k.uniformBuffers.map words64).flatten
  ++ (k.samplers.map DescriptorImageInfo.words).flatten
  ++ (k.inputAttachments.map DescriptorImageInfo.words).flatten
  ++ k.uniformBufferOffsets.map u32
  ++ k.uniformBufferSizes.map u32

/-- Modelled from the spec: `DescEqual` — byte-image equality of two
`DescriptorKey`s. -/
def DescEqual (k1 k2 : DescriptorKey) : Bool :=
  decide (k1.words = k2.words)

/-- Modelled from the spec: `DescHashFn = utils::hash::MurmurHashFn
(DescriptorKey)` — murmur3 over the full byte image. -/
def DescHashFn (k : DescriptorKey) : Nat := murmur3 k.words

/-- `VulkanPipelineCache::VertexInputAttributeDescription` (8 bytes). -/
structure VertexInputAttributeDescription where
  location : Nat
  binding : Nat
  format : Nat
  offset : Nat
deriving DecidableEq, Repr

/-- `VulkanPipelineCache::VertexInputBindingDescription` (8 bytes). -/
structure VertexInputBindingDescription where
  binding : Nat
  inputRate : Nat
  stride : Nat
deriving DecidableEq, Repr

/-- `VulkanPipelineCache::PipelineKey` (320 bytes): shader modules, render
pass, topology/subpass, bounded vertex attribute/binding arrays, the 16-byte
`RasterState` bit image (kept as one 128-bit number), the explicit padding
word, and the 128-bit pipeline-layout key. -/
structure PipelineKey where
  shaders : List Nat
  renderPass : Nat
  topology : Nat
  subpassIndex : Nat
  vertexAttributes : List VertexInputAttributeDescription
  vertexBuffers : List VertexInputBindingDescription
  rasterState : Nat
  padding : Nat
  layout : Nat
deriving DecidableEq, Repr

/-- Byte image (one word) of a `VertexInputAttributeDescription` low half:
`location` (8 bits), `binding` (8 bits), `format` (16 bits). -/
def VertexInputAttributeDescription.words (d : VertexInputAttributeDescription) : List Nat :=
  [u32 ((d.location % 256) + (d.binding % 256) * 256 + (d.format % 65536) * 65536),
    u32 d.offset]

/-- Byte image (two words) of a `VertexInputBindingDescription`: `binding` and
`inputRate` (16 bits each), then `stride`. -/
def VertexInputBindingDescription.words (d : VertexInputBindingDescription) : List Nat :=
  [u32 ((d.binding % 65536) + (d.inputRate % 65536) * 65536), u32 d.stride]

/-- Little-endian word image of a 128-bit value (`RasterState` image,
`PipelineLayoutKey` bitset). -/
def words128 (x : Nat) : List Nat :=
  [u32 x, u32 (x >>> 32), u32 (x >>> 64), u32 (x >>> 96)]

/-- Modelled from the spec: the full byte image of a `PipelineKey` (320 bytes =
80 words), in declaration order, over which `PipelineHashFn` and
`PipelineEqual` operate. -/
def PipelineKey.words (k : PipelineKey) : List Nat :=
  (k.shaders.map words64).flatten
  ++ words64 k.renderPass
  ++ [u32 ((k.topology % 65536) + (k.subpassIndex % 65536) * 65536)]
  ++ (k.vertexAttributes.map VertexInputAttributeDescription.words).flatten
  ++ (k.vertexBuffers.map VertexInputBindingDescription.words).flatten
  ++ words128 k.rasterState
  ++ [u32 k.padding]
  ++ words128 k.layout

/-- Modelled from the spec: `PipelineEqual` — byte-image equality of two
`PipelineKey`s. -/
def PipelineEqual (k1 k2 : PipelineKey) : Bool :=
  decide (k1.words = k2.words)

/-- Modelled from the spec: `PipelineHashFn = utils::hash::MurmurHashFn
(PipelineKey)`. -/
def PipelineHashFn (k : PipelineKey) : Nat := murmur3 k.words

/-! ## Iterated calls (for the entry-id uniqueness invariant) -/

/-- Run a sequence of `createDescriptorSets` calls; each input supplies the
descriptor requirements in force for that call and the allocation outcome.
Returns the entry returned by each call and the final state. -/
def runCreates (s : CacheState) (inputs : List (DescriptorKey × Option (List Nat))) :
    List (Option DescriptorCacheEntry) × CacheState :=
  match inputs with
  | [] => ([], s)
  | (req, alloc) :: rest =>
    let r := createDescriptorSets { s with mDescriptorRequirements := req } alloc
    let tail := runCreates r.state rest
    (r.entry :: tail.1, tail.2)

/-- Every call of the run is a cache miss (its requirements key is absent from
the descriptor-set map when the call happens) — the situation in which
`bindDescriptors` invokes `createDescriptorSets`. -/
def allMisses (s : CacheState) (inputs : List (DescriptorKey × Option (List Nat))) : Bool :=
  match inputs with
  | [] => true
  | (req, alloc) :: rest =>
    decide (alookup s.mDescriptorSets req = none)
    && allMisses (createDescriptorSets { s with mDescriptorRequirements := req } alloc).state
      rest

/-- Recognizer for growth events in a call trace. -/
def isGrowPool : VkCall → Bool
  | VkCall.growPool => true
  | _ => false

/-- Recognizer for `vkAllocateDescriptorSets` calls in a call trace. -/
def isAllocCall : VkCall → Bool
  | VkCall.allocateDescriptorSets _ _ => true
  | _ => false

/-- Recognizer for `vkUpdateDescriptorSets` calls in a call trace. -/
def isUpdateCall : VkCall → Bool
  | VkCall.updateDescriptorSets _ => true
  | _ => false

/-- Recognizer for `vkCmdBindDescriptorSets` calls in a call trace. -/
def isBindCall : VkCall → Bool
  | VkCall.cmdBindDescriptorSets _ _ => true
  | _ => false

/-! ## Concrete states used by the witnesses and counterexamples -/

/-- A concrete pre-built dummy uniform-buffer write (the constructor points it
at the placeholder buffer, here handle 77). -/
def dummyWrite0 : VkWriteDescriptorSet :=
  { dstSet := 0,
    dstBinding := 0,
    dstArrayElement := 0,
    descriptorCount := 1,
    descriptorType := VkDescriptorType.uniformBuffer,
    bufferInfo := some { buffer := 77, offset := 0, range := 100 },
    imageInfo := none }

/-- A freshly constructed cache: empty maps, initial pool size, zero-initialized
bound/requirement keys. -/
def state0 : CacheState :=
  { mDescriptorCacheEntryCount := 0,
    mDescriptorSets := [],
    mDescriptorResources := [],
    mDescriptorPoolSize := INITIAL_DESCRIPTOR_SET_POOL_SIZE,
    mDescriptorArenasCount := 0,
    mDescriptorPool := 1,
    mExtinctDescriptorPools := [],
    mExtinctDescriptorBundles := [],
    mDummyBufferWriteInfo := dummyWrite0,
    mDescriptorRequirements := zeroDescriptorKey,
    mBoundDescriptor := zeroDescriptorKey,
    mCurrentTime := 0,
    mPipelineLayouts := [],
    mPipelineRequirementsLayout := 3,
    mPipelineBoundResources := [] }

/-- A key with uniform buffer 5 (size = the internal whole-size sentinel) bound
at slot 0. -/
def keyA : DescriptorKey :=
  { zeroDescriptorKey with
    uniformBuffers := zeroDescriptorKey.uniformBuffers.set 0 5,
    uniformBufferSizes := zeroDescriptorKey.uniformBufferSizes.set 0 WHOLE_SIZE }

/-- A key with uniform buffer 6 (offset 64, size 256) bound at slot 1. -/
def keyB : DescriptorKey :=
  { zeroDescriptorKey with
    uniformBuffers := zeroDescriptorKey.uniformBuffers.set 1 6,
    uniformBufferOffsets := zeroDescriptorKey.uniformBufferOffsets.set 1 64,
    uniformBufferSizes := zeroDescriptorKey.uniformBufferSizes.set 1 256 }

/-- A cache entry as created for `keyA` with handles 10/11/12. -/
def entryA : DescriptorCacheEntry :=
  { handles := [10, 11, 12], lastUsed := 0, pipelineLayout := 3, id := 0 }

/-- A state in which `keyA` is both cached and currently bound: the fast-path
situation of `bindDescriptors`. -/
def stateFast : CacheState :=
  { state0 with
    mDescriptorCacheEntryCount := 1,
    mDescriptorSets := [(keyA, entryA)],
    mDescriptorRequirements := keyA,
    mBoundDescriptor := keyA,
    mCurrentTime := 7,
    mPipelineBoundResources := [42],
    mPipelineLayouts :=
      [(3, { handle := 1, lastUsed := 0, descriptorSetLayouts := [0, 1, 2],
             descriptorSetArenas := [[], [], []] })] }

/-! ## Structural facts about the operations -/

/-- A layout cache entry with one reclaimable descriptor set in each arena. -/
def arenaEntryFull : PipelineLayoutCacheEntry :=
  { handle := 1, lastUsed := 0, descriptorSetLayouts := [0, 1, 2],
    descriptorSetArenas := [[31], [32], [33]] }

/-- `arenaEntryFull` after one reuse popped each arena. -/
def arenaEntryPopped : PipelineLayoutCacheEntry :=
  { handle := 1, lastUsed := 0, descriptorSetLayouts := [0, 1, 2],
    descriptorSetArenas := [[], [], []] }

/-- A state whose layout entry has one reclaimable descriptor set in each
arena (handles 31/32/33) and a pending requirement `keyA` not yet cached. -/
def stateArena : CacheState :=
  { state0 with
    mDescriptorArenasCount := 1,
    mDescriptorRequirements := keyA,
    mPipelineLayouts := [(3, arenaEntryFull)] }

/-- A state that will grow the pool and then fail allocation: one cached
entry, pool capacity 1 (so 1 + 0 + 1 > 1 breaches), requirements `keyB` not
cached, empty layout map (fresh layout entry with empty arenas). -/
def stateGrow : CacheState :=
  { state0 with
    mDescriptorPoolSize := 1,
    mDescriptorSets := [(keyA, entryA)],
    mDescriptorRequirements := keyB }

/-- All reclaim arenas of a layout entry hold the same number of descriptor
sets (the implicit invariant behind checking only the first arena). -/
def arenasBalanced (l : List (List Nat)) : Prop :=
  ∀ a ∈ l, ∀ b ∈ l, a.length = b.length

instance (l : List (List Nat)) : Decidable (arenasBalanced l) := by
  unfold arenasBalanced
  infer_instance

/-- `stateFast` with a stale bound key, so the fast path is not taken and the
lookup hits the cached entry for `keyA`. -/
def stateHit : CacheState :=
  { stateFast with mBoundDescriptor := zeroDescriptorKey }

/-- The zero-initialized `PipelineKey`. -/
def pipeKey0 : PipelineKey :=
  { shaders := [0, 0], renderPass := 0, topology := 0, subpassIndex := 0,
    vertexAttributes := List.replicate 16
      { location := 0, binding := 0, format := 0, offset := 0 },
    vertexBuffers := List.replicate 16 { binding := 0, inputRate := 0, stride := 0 },
    rasterState := 0, padding := 0, layout := 0 }

/-- `pipeKey0` with a different raster-state bit image. -/
def pipeKey1 : PipelineKey := { pipeKey0 with rasterState := 77 }

/-- Inputs for a two-call creation run: two distinct keys, both allocations
succeeding. -/
def testInputs : List (DescriptorKey × Option (List Nat)) :=
  [(keyA, some [10, 11, 12]), (keyB, some [13, 14, 15])]

/-- The entry created by the first call of the `testInputs` run. -/
def entryRun0 : DescriptorCacheEntry :=
  { handles := [10, 11, 12], lastUsed := 0, pipelineLayout := 3, id := 0 }

/-- The entry created by the second call of the `testInputs` run. -/
def entryRun1 : DescriptorCacheEntry :=
  { handles := [13, 14, 15], lastUsed := 0, pipelineLayout := 3, id := 1 }

/-! ## Basic lemmas about the association-list operations -/

theorem alookup_append_of_none {α β : Type} [DecidableEq α] {m1 : List (α × β)}
    (m2 : List (α × β)) {k : α} (h : alookup m1 k = none) :
    alookup (m1 ++ m2) k = alookup m2 k := by
  induction m1 with
  | nil => simp
  | cons p rest ih =>
    by_cases hp : p.1 = k
    · simp [alookup, hp] at h
    · simp only [alookup, hp, if_false] at h
      simpa [alookup, hp] using ih h

theorem alookup_append_of_some {α β : Type} [DecidableEq α] {m1 : List (α × β)}
    (m2 : List (α × β)) {k : α} {v : β} (h : alookup m1 k = some v) :
    alookup (m1 ++ m2) k = some v := by
  induction m1 with
  | nil => simp [alookup] at h
  | cons p rest ih =>
    by_cases hp : p.1 = k
    · simp only [alookup, hp, if_true] at h
      simp [alookup, hp, h]
    · simp only [alookup, hp, if_false] at h
      simpa [alookup, hp] using ih h

theorem alookup_updateAt_self {α β : Type} [DecidableEq α] (m : List (α × β)) (k : α)
    (g : β → β) : alookup (updateAt m k g) k = (alookup m k).map g := by
  induction m with
  | nil => simp [alookup, updateAt]
  | cons p rest ih =>
    by_cases hp : p.1 = k
    · simp [alookup, updateAt, hp]
    · simpa [alookup, updateAt, hp] using ih

theorem alookup_updateAt_ne {α β : Type} [DecidableEq α] (m : List (α × β)) {k k' : α}
    (g : β → β) (h : k' ≠ k) : alookup (updateAt m k g) k' = alookup m k' := by
  induction m with
  | nil => rfl
  | cons p rest ih =>
    by_cases hp : p.1 = k
    · subst hp
      have hne : p.1 ≠ k' := fun hc => h hc.symm
      simp [updateAt, alookup, hne] at ih ⊢
      exact ih
    · by_cases hp' : p.1 = k'
      · simp [updateAt, alookup, hp, hp', h]
      · simp [updateAt, alookup, hp, hp'] at ih ⊢
        exact ih

theorem keys_updateAt {α β : Type} [DecidableEq α] (m : List (α × β)) (k : α)
    (g : β → β) : (updateAt m k g).map Prod.fst = m.map Prod.fst := by
  induction m with
  | nil => simp [updateAt]
  | cons p rest ih =>
    by_cases hp : p.1 = k <;> simpa [updateAt, hp] using ih

theorem alookup_mapVals {α β : Type} [DecidableEq α] (m : List (α × β)) (k : α)
    (g : β → β) :
    alookup (m.map fun p => (p.1, g p.2)) k = (alookup m k).map g := by
  induction m with
  | nil => simp [alookup]
  | cons p rest ih =>
    by_cases hp : p.1 = k
    · simp [alookup, hp]
    · simpa [alookup, hp] using ih

theorem updateAt_of_none {α β : Type} [DecidableEq α] {m : List (α × β)} {k : α}
    (g : β → β) (h : alookup m k = none) : updateAt m k g = m := by
  induction m with
  | nil => simp [updateAt]
  | cons p rest ih =>
    by_cases hp : p.1 = k
    · simp [alookup, hp] at h
    · simp only [alookup, hp, if_false] at h
      simp [updateAt, hp] at ih ⊢
      exact ih h

/-! ## Branch characterizations of the cache operations -/

theorem getOrCreate_found {s : CacheState} {e : PipelineLayoutCacheEntry}
    (h : alookup s.mPipelineLayouts s.mPipelineRequirementsLayout = some e) :
    getOrCreatePipelineLayout s = (e, s) := by
  unfold getOrCreatePipelineLayout
  rw [h]

theorem getOrCreate_miss {s : CacheState}
    (h : alookup s.mPipelineLayouts s.mPipelineRequirementsLayout = none) :
    getOrCreatePipelineLayout s = (freshLayoutEntry s, { s with
      mPipelineLayouts :=
        s.mPipelineLayouts ++ [(s.mPipelineRequirementsLayout, freshLayoutEntry s)] }) := by
  unfold getOrCreatePipelineLayout
  rw [h]

theorem finishCreate_insert {s : CacheState} (entry : DescriptorCacheEntry)
    (preCalls : List VkCall)
    (h : alookup s.mDescriptorSets s.mDescriptorRequirements = none) :
    finishCreate s entry preCalls =
      { entry := some entry,
        state := { s with
          mDescriptorSets := s.mDescriptorSets ++ [(s.mDescriptorRequirements, entry)] },
        calls := preCalls ++ [VkCall.updateDescriptorSets
          (buildWrites s.mDescriptorRequirements s.mDummyBufferWriteInfo
            entry.handles)] } := by
  unfold finishCreate
  rw [h]

theorem finishCreate_existing {s : CacheState} (entry : DescriptorCacheEntry)
    (preCalls : List VkCall) {e0 : DescriptorCacheEntry}
    (h : alookup s.mDescriptorSets s.mDescriptorRequirements = some e0) :
    finishCreate s entry preCalls =
      { entry := some e0, state := s,
        calls := preCalls ++ [VkCall.updateDescriptorSets
          (buildWrites s.mDescriptorRequirements s.mDummyBufferWriteInfo
            entry.handles)] } := by
  unfold finishCreate
  rw [h]

theorem finishCreate_eq (s : CacheState) (entry : DescriptorCacheEntry)
    (pre : List VkCall) :
    finishCreate s entry pre =
      match alookup s.mDescriptorSets s.mDescriptorRequirements with
      | some existing =>
        { entry := some existing, state := s,
          calls := pre ++ [VkCall.updateDescriptorSets
            (buildWrites s.mDescriptorRequirements s.mDummyBufferWriteInfo
              entry.handles)] }
      | none =>
        { entry := some entry,
          state := { s with
            mDescriptorSets := s.mDescriptorSets ++ [(s.mDescriptorRequirements, entry)] },
          calls := pre ++ [VkCall.updateDescriptorSets
            (buildWrites s.mDescriptorRequirements s.mDummyBufferWriteInfo
              entry.handles)] } := rfl

theorem createDS_fresh_fail {s : CacheState} {e : PipelineLayoutCacheEntry}
    {s1 : CacheState} (hG : getOrCreatePipelineLayout s = (e, s1))
    (hA : (e.descriptorSetArenas.getD 0 []).isEmpty = true) :
    createDescriptorSets s none =
      (let s2 := { s1 with
         mDescriptorCacheEntryCount := (s1.mDescriptorCacheEntryCount + 1) % U32_MOD }
       let s3 :=
         if s2.mDescriptorSets.length + s2.mDescriptorArenasCount + 1 > s2.mDescriptorPoolSize
         then growDescriptorPool s2 else s2
       { entry := none, state := s3,
         calls := (if s2.mDescriptorSets.length + s2.mDescriptorArenasCount + 1
               > s2.mDescriptorPoolSize then [VkCall.growPool] else [])
           ++ [VkCall.allocateDescriptorSets s3.mDescriptorPool false] }) := by
  unfold createDescriptorSets
  rw [hG]
  dsimp only
  rw [hA]
  simp

theorem createDS_fresh_some {s : CacheState} {e : PipelineLayoutCacheEntry}
    {s1 : CacheState} (hs : List Nat) (hG : getOrCreatePipelineLayout s = (e, s1))
    (hA : (e.descriptorSetArenas.getD 0 []).isEmpty = true) :
    createDescriptorSets s (some hs) =
      (let s2 := { s1 with
         mDescriptorCacheEntryCount := (s1.mDescriptorCacheEntryCount + 1) % U32_MOD }
       let s3 :=
         if s2.mDescriptorSets.length + s2.mDescriptorArenasCount + 1 > s2.mDescriptorPoolSize
         then growDescriptorPool s2 else s2
       finishCreate s3
         { handles := hs, lastUsed := 0,
           pipelineLayout := s1.mPipelineRequirementsLayout,
           id := s1.mDescriptorCacheEntryCount }
         ((if s2.mDescriptorSets.length + s2.mDescriptorArenasCount + 1
               > s2.mDescriptorPoolSize then [VkCall.growPool] else [])
           ++ [VkCall.allocateDescriptorSets s3.mDescriptorPool true])) := by
  unfold createDescriptorSets
  rw [hG]
  dsimp only
  rw [hA]
  simp

theorem createDS_reuse {s : CacheState} {e : PipelineLayoutCacheEntry}
    {s1 : CacheState} (alloc : Option (List Nat))
    (hG : getOrCreatePipelineLayout s = (e, s1))
    (hA : (e.descriptorSetArenas.getD 0 []).isEmpty = false) :
    createDescriptorSets s alloc =
      finishCreate
        { s1 with
          mDescriptorCacheEntryCount := (s1.mDescriptorCacheEntryCount + 1) % U32_MOD,
          mPipelineLayouts := updateAt s1.mPipelineLayouts s1.mPipelineRequirementsLayout
            fun le => { le with
              descriptorSetArenas := e.descriptorSetArenas.map fun a => a.dropLast },
          mDescriptorArenasCount := (s1.mDescriptorArenasCount + (U32_MOD - 1)) % U32_MOD }
        { handles := e.descriptorSetArenas.map fun a => a.getLastD 0,
          lastUsed := 0,
          pipelineLayout := s1.mPipelineRequirementsLayout,
          id := s1.mDescriptorCacheEntryCount }
        [] := by
  unfold createDescriptorSets
  rw [hG]
  dsimp only
  rw [hA]
  simp

theorem bind_fast {s : CacheState} (alloc : Option (List Nat))
    (h1 : s.mBoundDescriptor = s.mDescriptorRequirements)
    (h2 : s.mDescriptorSets.isEmpty = false) :
    bindDescriptors s alloc =
      { ok := true,
        state := { s with
          mDescriptorSets := setLastUsed s.mDescriptorSets s.mDescriptorRequirements
            s.mCurrentTime },
        calls := [] } := by
  unfold bindDescriptors
  rw [if_pos ⟨h1, h2⟩]

theorem bind_nofast_hit {s : CacheState} (alloc : Option (List Nat))
    {e : DescriptorCacheEntry}
    (hfast : ¬ (s.mBoundDescriptor = s.mDescriptorRequirements ∧
      s.mDescriptorSets.isEmpty = false))
    (hfound : alookup s.mDescriptorSets s.mDescriptorRequirements = some e) :
    bindDescriptors s alloc = bindTail s e [] := by
  unfold bindDescriptors
  rw [if_neg hfast, hfound]

theorem bind_miss_fail {s : CacheState} {alloc : Option (List Nat)}
    (hfast : ¬ (s.mBoundDescriptor = s.mDescriptorRequirements ∧
      s.mDescriptorSets.isEmpty = false))
    (hmiss : alookup s.mDescriptorSets s.mDescriptorRequirements = none)
    (hfail : (createDescriptorSets s alloc).entry = none) :
    bindDescriptors s alloc =
      { ok := false, state := (createDescriptorSets s alloc).state,
        calls := (createDescriptorSets s alloc).calls } := by
  unfold bindDescriptors
  rw [if_neg hfast, hmiss]
  dsimp only
  rw [hfail]

theorem bind_miss_ok {s : CacheState} {alloc : Option (List Nat)}
    {ce : DescriptorCacheEntry}
    (hfast : ¬ (s.mBoundDescriptor = s.mDescriptorRequirements ∧
      s.mDescriptorSets.isEmpty = false))
    (hmiss : alookup s.mDescriptorSets s.mDescriptorRequirements = none)
    (hok : (createDescriptorSets s alloc).entry = some ce) :
    bindDescriptors s alloc =
      bindTail (createDescriptorSets s alloc).state ce
        (createDescriptorSets s alloc).calls := by
  unfold bindDescriptors
  rw [if_neg hfast, hmiss]
  dsimp only
  rw [hok]

theorem finishCreate_calls (s : CacheState) (entry : DescriptorCacheEntry)
    (preCalls : List VkCall) :
    (finishCreate s entry preCalls).calls =
      preCalls ++ [VkCall.updateDescriptorSets
        (buildWrites s.mDescriptorRequirements s.mDummyBufferWriteInfo entry.handles)] := by
  cases h : alookup s.mDescriptorSets s.mDescriptorRequirements
  · rw [finishCreate_insert entry preCalls h]
  · rw [finishCreate_existing entry preCalls h]

theorem getOrCreate_fields (t : CacheState) :
    (getOrCreatePipelineLayout t).2.mDescriptorCacheEntryCount = t.mDescriptorCacheEntryCount
    ∧ (getOrCreatePipelineLayout t).2.mDescriptorSets = t.mDescriptorSets
    ∧ (getOrCreatePipelineLayout t).2.mDescriptorResources = t.mDescriptorResources
    ∧ (getOrCreatePipelineLayout t).2.mDescriptorPoolSize = t.mDescriptorPoolSize
    ∧ (getOrCreatePipelineLayout t).2.mDescriptorArenasCount = t.mDescriptorArenasCount
    ∧ (getOrCreatePipelineLayout t).2.mDescriptorPool = t.mDescriptorPool
    ∧ (getOrCreatePipelineLayout t).2.mExtinctDescriptorPools = t.mExtinctDescriptorPools
    ∧ (getOrCreatePipelineLayout t).2.mExtinctDescriptorBundles = t.mExtinctDescriptorBundles
    ∧ (getOrCreatePipelineLayout t).2.mDummyBufferWriteInfo = t.mDummyBufferWriteInfo
    ∧ (getOrCreatePipelineLayout t).2.mDescriptorRequirements = t.mDescriptorRequirements
    ∧ (getOrCreatePipelineLayout t).2.mBoundDescriptor = t.mBoundDescriptor
    ∧ (getOrCreatePipelineLayout t).2.mCurrentTime = t.mCurrentTime
    ∧ (getOrCreatePipelineLayout t).2.mPipelineRequirementsLayout
        = t.mPipelineRequirementsLayout
    ∧ (getOrCreatePipelineLayout t).2.mPipelineBoundResources
        = t.mPipelineBoundResources := by
  cases hL : alookup t.mPipelineLayouts t.mPipelineRequirementsLayout
  · rw [getOrCreate_miss hL]
    exact ⟨rfl, rfl, rfl, rfl, rfl, rfl, rfl, rfl, rfl, rfl, rfl, rfl, rfl, rfl⟩
  · rw [getOrCreate_found hL]
    exact ⟨rfl, rfl, rfl, rfl, rfl, rfl, rfl, rfl, rfl, rfl, rfl, rfl, rfl, rfl⟩

theorem finishCreate_fields (t : CacheState) (entry : DescriptorCacheEntry)
    (pre : List VkCall) :
    (finishCreate t entry pre).state.mDescriptorCacheEntryCount
        = t.mDescriptorCacheEntryCount
    ∧ (finishCreate t entry pre).state.mDescriptorResources = t.mDescriptorResources
    ∧ (finishCreate t entry pre).state.mDescriptorPoolSize = t.mDescriptorPoolSize
    ∧ (finishCreate t entry pre).state.mDescriptorArenasCount = t.mDescriptorArenasCount
    ∧ (finishCreate t entry pre).state.mDummyBufferWriteInfo = t.mDummyBufferWriteInfo
    ∧ (finishCreate t entry pre).state.mDescriptorRequirements = t.mDescriptorRequirements
    ∧ (finishCreate t entry pre).state.mBoundDescriptor = t.mBoundDescriptor
    ∧ (finishCreate t entry pre).state.mCurrentTime = t.mCurrentTime
    ∧ (finishCreate t entry pre).state.mPipelineLayouts = t.mPipelineLayouts
    ∧ (finishCreate t entry pre).state.mPipelineRequirementsLayout
        = t.mPipelineRequirementsLayout
    ∧ (finishCreate t entry pre).state.mPipelineBoundResources
        = t.mPipelineBoundResources := by
  cases h : alookup t.mDescriptorSets t.mDescriptorRequirements
  · rw [finishCreate_insert entry pre h]
    exact ⟨rfl, rfl, rfl, rfl, rfl, rfl, rfl, rfl, rfl, rfl, rfl⟩
  · rw [finishCreate_existing entry pre h]
    exact ⟨rfl, rfl, rfl, rfl, rfl, rfl, rfl, rfl, rfl, rfl, rfl⟩

/-- Fields of the cache state that `createDescriptorSets` never modifies
(regardless of branch): the requirement keys, the bound key, the resource
maps, the timestamp, and the dummy write. -/
theorem createDS_fields (s : CacheState) (alloc : Option (List Nat)) :
    (createDescriptorSets s alloc).state.mDescriptorRequirements
        = s.mDescriptorRequirements
    ∧ (createDescriptorSets s alloc).state.mBoundDescriptor = s.mBoundDescriptor
    ∧ (createDescriptorSets s alloc).state.mDescriptorResources = s.mDescriptorResources
    ∧ (createDescriptorSets s alloc).state.mPipelineBoundResources
        = s.mPipelineBoundResources
    ∧ (createDescriptorSets s alloc).state.mCurrentTime = s.mCurrentTime
    ∧ (createDescriptorSets s alloc).state.mDummyBufferWriteInfo
        = s.mDummyBufferWriteInfo
    ∧ (createDescriptorSets s alloc).state.mPipelineRequirementsLayout
        = s.mPipelineRequirementsLayout := by
  cases hL : alookup s.mPipelineLayouts s.mPipelineRequirementsLayout with
  | none =>
    have hG := getOrCreate_miss hL
    have hA : (((freshLayoutEntry s).descriptorSetArenas.getD 0 []).isEmpty) = true := rfl
    cases alloc with
    | none =>
      rw [createDS_fresh_fail hG hA]
      dsimp only
      split <;>
        exact ⟨rfl, rfl, rfl, rfl, rfl, rfl, rfl⟩
    | some hs =>
      rw [createDS_fresh_some hs hG hA]
      dsimp only
      split <;>
        · rename_i hcond
          constructor
          on_goal 1 => exact (finishCreate_fields _ _ _).2.2.2.2.2.1
          constructor
          on_goal 1 => exact (finishCreate_fields _ _ _).2.2.2.2.2.2.1
          constructor
          on_goal 1 => exact (finishCreate_fields _ _ _).2.1
          constructor
          on_goal 1 => exact (finishCreate_fields _ _ _).2.2.2.2.2.2.2.2.2.2
          constructor
          on_goal 1 => exact (finishCreate_fields _ _ _).2.2.2.2.2.2.2.1
          constructor
          on_goal 1 => exact (finishCreate_fields _ _ _).2.2.2.2.1
          exact (finishCreate_fields _ _ _).2.2.2.2.2.2.2.2.2.1
  | some e =>
    have hG := getOrCreate_found hL
    cases hA : ((e.descriptorSetArenas.getD 0 []).isEmpty) with
    | true =>
      cases alloc with
      | none =>
        rw [createDS_fresh_fail hG hA]
        dsimp only
        split <;>
          exact ⟨rfl, rfl, rfl, rfl, rfl, rfl, rfl⟩
      | some hs =>
        rw [createDS_fresh_some hs hG hA]
        dsimp only
        split <;>
          · constructor
            on_goal 1 => exact (finishCreate_fields _ _ _).2.2.2.2.2.1
            constructor
            on_goal 1 => exact (finishCreate_fields _ _ _).2.2.2.2.2.2.1
            constructor
            on_goal 1 => exact (finishCreate_fields _ _ _).2.1
            constructor
            on_goal 1 => exact (finishCreate_fields _ _ _).2.2.2.2.2.2.2.2.2.2
            constructor
            on_goal 1 => exact (finishCreate_fields _ _ _).2.2.2.2.2.2.2.1
            constructor
            on_goal 1 => exact (finishCreate_fields _ _ _).2.2.2.2.1
            exact (finishCreate_fields _ _ _).2.2.2.2.2.2.2.2.2.1
    | false =>
      rw [createDS_reuse alloc hG hA]
      constructor
      on_goal 1 => exact (finishCreate_fields _ _ _).2.2.2.2.2.1
      constructor
      on_goal 1 => exact (finishCreate_fields _ _ _).2.2.2.2.2.2.1
      constructor
      on_goal 1 => exact (finishCreate_fields _ _ _).2.1
      constructor
      on_goal 1 => exact (finishCreate_fields _ _ _).2.2.2.2.2.2.2.2.2.2
      constructor
      on_goal 1 => exact (finishCreate_fields _ _ _).2.2.2.2.2.2.2.1
      constructor
      on_goal 1 => exact (finishCreate_fields _ _ _).2.2.2.2.1
      exact (finishCreate_fields _ _ _).2.2.2.2.2.2.2.2.2.1

/-- On a cache miss (the requirements key is absent from the map), a failing
`createDescriptorSets` leaves no entry at the key, and a successful one returns
the newly constructed entry (id = the pre-increment counter, zero timestamp,
current layout key) and stores it at the key. -/
theorem createDS_miss_spec (s : CacheState) (alloc : Option (List Nat))
    (hmiss : alookup s.mDescriptorSets s.mDescriptorRequirements = none) :
    ((createDescriptorSets s alloc).entry = none →
        alookup (createDescriptorSets s alloc).state.mDescriptorSets
          s.mDescriptorRequirements = none)
    ∧ (∀ ce, (createDescriptorSets s alloc).entry = some ce →
        ce.id = s.mDescriptorCacheEntryCount
        ∧ ce.lastUsed = 0
        ∧ ce.pipelineLayout = s.mPipelineRequirementsLayout
        ∧ alookup (createDescriptorSets s alloc).state.mDescriptorSets
            s.mDescriptorRequirements = some ce) := by
  have hkey : ∀ (m : List (DescriptorKey × DescriptorCacheEntry))
      (ce : DescriptorCacheEntry), alookup m s.mDescriptorRequirements = none →
      alookup (m ++ [(s.mDescriptorRequirements, ce)]) s.mDescriptorRequirements
        = some ce := by
    intro m ce hm
    rw [alookup_append_of_none _ hm]
    simp [alookup]
  cases hL : alookup s.mPipelineLayouts s.mPipelineRequirementsLayout with
  | none =>
    have hG := getOrCreate_miss hL
    have hA : (((freshLayoutEntry s).descriptorSetArenas.getD 0 []).isEmpty) = true := rfl
    cases alloc with
    | none =>
      rw [createDS_fresh_fail hG hA]
      dsimp only
      by_cases hgrew :
          s.mDescriptorSets.length + s.mDescriptorArenasCount + 1 > s.mDescriptorPoolSize
      · simp only [if_pos hgrew, growDescriptorPool]
        exact ⟨fun _ => rfl, fun ce h => by simp at h⟩
      · simp only [if_neg hgrew]
        exact ⟨fun _ => hmiss, fun ce h => by simp at h⟩
    | some hs =>
      rw [createDS_fresh_some hs hG hA]
      dsimp only
      by_cases hgrew :
          s.mDescriptorSets.length + s.mDescriptorArenasCount + 1 > s.mDescriptorPoolSize
      · simp only [if_pos hgrew, growDescriptorPool]
        rw [finishCreate_eq]
        dsimp only
        simp only [alookup]
        refine ⟨fun h => by simp at h, fun ce h => ?_⟩
        obtain rfl : _ = ce := Option.some_injective _ h
        exact ⟨rfl, rfl, rfl, by simp⟩
      · simp only [if_neg hgrew]
        rw [finishCreate_eq]
        dsimp only
        rw [hmiss]
        refine ⟨fun h => by simp at h, fun ce h => ?_⟩
        obtain rfl : _ = ce := Option.some_injective _ h
        exact ⟨rfl, rfl, rfl, hkey _ _ hmiss⟩
  | some e =>
    have hG := getOrCreate_found hL
    cases hA : ((e.descriptorSetArenas.getD 0 []).isEmpty) with
    | true =>
      cases alloc with
      | none =>
        rw [createDS_fresh_fail hG hA]
        dsimp only
        by_cases hgrew :
            s.mDescriptorSets.length + s.mDescriptorArenasCount + 1 > s.mDescriptorPoolSize
        · simp only [if_pos hgrew, growDescriptorPool]
          exact ⟨fun _ => rfl, fun ce h => by simp at h⟩
        · simp only [if_neg hgrew]
          exact ⟨fun _ => hmiss, fun ce h => by simp at h⟩
      | some hs =>
        rw [createDS_fresh_some hs hG hA]
        dsimp only
        by_cases hgrew :
            s.mDescriptorSets.length + s.mDescriptorArenasCount + 1 > s.mDescriptorPoolSize
        · simp only [if_pos hgrew, growDescriptorPool]
          rw [finishCreate_eq]
          dsimp only
          simp only [alookup]
          refine ⟨fun h => by simp at h, fun ce h => ?_⟩
          obtain rfl : _ = ce := Option.some_injective _ h
          exact ⟨rfl, rfl, rfl, by simp⟩
        · simp only [if_neg hgrew]
          rw [finishCreate_eq]
          dsimp only
          rw [hmiss]
          refine ⟨fun h => by simp at h, fun ce h => ?_⟩
          obtain rfl : _ = ce := Option.some_injective _ h
          exact ⟨rfl, rfl, rfl, hkey _ _ hmiss⟩
    | false =>
      rw [createDS_reuse alloc hG hA]
      rw [finishCreate_eq]
      dsimp only
      rw [hmiss]
      refine ⟨fun h => by simp at h, fun ce h => ?_⟩
      obtain rfl : _ = ce := Option.some_injective _ h
      exact ⟨rfl, rfl, rfl, hkey _ _ hmiss⟩

theorem alookup_append_single_ne {α β : Type} [DecidableEq α] (m : List (α × β))
    {k i : α} (v : β) (h : i ≠ k) : alookup (m ++ [(k, v)]) i = alookup m i := by
  cases hm : alookup m i with
  | none =>
    rw [alookup_append_of_none _ hm]
    have hki : ¬ k = i := fun hc => h hc.symm
    simp [alookup, hki]
  | some w => exact alookup_append_of_some _ hm

theorem finishCreate_entry_isSome (t : CacheState) (entry : DescriptorCacheEntry)
    (pre : List VkCall) : (finishCreate t entry pre).entry.isSome = true := by
  cases h : alookup t.mDescriptorSets t.mDescriptorRequirements
  · rw [finishCreate_insert entry pre h]
    rfl
  · rw [finishCreate_existing entry pre h]
    rfl

/-- Call-trace facts about `createDescriptorSets`: it never issues a bind call
itself, it issues exactly one batched `vkUpdateDescriptorSets` call when (and
only when) it returns an entry, and with a successful allocation outcome it
always returns an entry. -/
theorem createDS_calls_spec (s : CacheState) (alloc : Option (List Nat)) :
    ((createDescriptorSets s alloc).calls.countP isBindCall = 0)
    ∧ ((createDescriptorSets s alloc).calls.countP isUpdateCall
        = if (createDescriptorSets s alloc).entry.isSome then 1 else 0)
    ∧ (∀ hs, alloc = some hs → (createDescriptorSets s alloc).entry.isSome = true) := by
  cases hL : alookup s.mPipelineLayouts s.mPipelineRequirementsLayout with
  | none =>
    have hG := getOrCreate_miss hL
    have hA : (((freshLayoutEntry s).descriptorSetArenas.getD 0 []).isEmpty) = true := rfl
    cases alloc with
    | none =>
      rw [createDS_fresh_fail hG hA]
      dsimp only
      by_cases hgrew :
          s.mDescriptorSets.length + s.mDescriptorArenasCount + 1 > s.mDescriptorPoolSize
      · simp [if_pos hgrew, isBindCall, isUpdateCall, List.countP_append, List.countP_cons]
      · simp [if_neg hgrew, isBindCall, isUpdateCall, List.countP_append, List.countP_cons]
    | some hs =>
      rw [createDS_fresh_some hs hG hA]
      dsimp only
      refine ⟨?_, ?_, fun _ _ => finishCreate_entry_isSome _ _ _⟩
      · rw [finishCreate_calls]
        by_cases hgrew :
            s.mDescriptorSets.length + s.mDescriptorArenasCount + 1
              > s.mDescriptorPoolSize <;>
          simp [hgrew, isBindCall, List.countP_append, List.countP_cons]
      · rw [finishCreate_calls, finishCreate_entry_isSome]
        by_cases hgrew :
            s.mDescriptorSets.length + s.mDescriptorArenasCount + 1
              > s.mDescriptorPoolSize <;>
          simp [hgrew, isUpdateCall, List.countP_append, List.countP_cons]
  | some e =>
    have hG := getOrCreate_found hL
    cases hA : ((e.descriptorSetArenas.getD 0 []).isEmpty) with
    | true =>
      cases alloc with
      | none =>
        rw [createDS_fresh_fail hG hA]
        dsimp only
        by_cases hgrew :
            s.mDescriptorSets.length + s.mDescriptorArenasCount + 1 > s.mDescriptorPoolSize
        · simp [if_pos hgrew, isBindCall, isUpdateCall, List.countP_append, List.countP_cons]
        · simp [if_neg hgrew, isBindCall, isUpdateCall, List.countP_append, List.countP_cons]
      | some hs =>
        rw [createDS_fresh_some hs hG hA]
        dsimp only
        refine ⟨?_, ?_, fun _ _ => finishCreate_entry_isSome _ _ _⟩
        · rw [finishCreate_calls]
          by_cases hgrew :
              s.mDescriptorSets.length + s.mDescriptorArenasCount + 1
                > s.mDescriptorPoolSize <;>
            simp [hgrew, isBindCall, List.countP_append, List.countP_cons]
        · rw [finishCreate_calls, finishCreate_entry_isSome]
          by_cases hgrew :
              s.mDescriptorSets.length + s.mDescriptorArenasCount + 1
                > s.mDescriptorPoolSize <;>
            simp [hgrew, isUpdateCall, List.countP_append, List.countP_cons]
    | false =>
      rw [createDS_reuse alloc hG hA]
      refine ⟨?_, ?_, fun _ _ => finishCreate_entry_isSome _ _ _⟩
      · rw [finishCreate_calls]
        simp [isBindCall, List.countP_append, List.countP_cons]
      · rw [finishCreate_calls, finishCreate_entry_isSome]
        simp [isUpdateCall, List.countP_append, List.countP_cons]

/-- Behaviour of the tail of `bindDescriptors` (after the null check): returns
true, issues exactly one bind call and no update call of its own, refreshes the
timestamp of the entry at the requirements key, records the bound key, and
acquires the pipeline-bound resources into the per-entry tracker for
`cacheEntry.id` (created on first use), leaving all other trackers alone. -/
theorem bindTail_spec (s1 : CacheState) (ce : DescriptorCacheEntry)
    (pre : List VkCall) :
    (bindTail s1 ce pre).ok = true
    ∧ (bindTail s1 ce pre).calls.countP isBindCall = pre.countP isBindCall + 1
    ∧ (bindTail s1 ce pre).calls.countP isUpdateCall = pre.countP isUpdateCall
    ∧ (bindTail s1 ce pre).state.mDescriptorSets
        = setLastUsed s1.mDescriptorSets s1.mDescriptorRequirements s1.mCurrentTime
    ∧ (bindTail s1 ce pre).state.mBoundDescriptor = s1.mDescriptorRequirements
    ∧ alookup (bindTail s1 ce pre).state.mDescriptorResources ce.id
        = some (s1.mPipelineBoundResources
            ++ (alookup s1.mDescriptorResources ce.id).getD [])
    ∧ (∀ i, i ≠ ce.id → alookup (bindTail s1 ce pre).state.mDescriptorResources i
        = alookup s1.mDescriptorResources i) := by
  unfold bindTail
  dsimp only
  cases h3 : alookup s1.mDescriptorResources ce.id with
  | none =>
    dsimp only
    obtain ⟨f1, f2, f3, f4, f5, f6, f7, f8, f9, f10, f11, f12, f13, f14⟩ :=
      getOrCreate_fields { s1 with
        mDescriptorSets := setLastUsed s1.mDescriptorSets s1.mDescriptorRequirements
          s1.mCurrentTime,
        mBoundDescriptor := s1.mDescriptorRequirements,
        mDescriptorResources :=
          updateAt (s1.mDescriptorResources ++ [(ce.id, [])]) ce.id
            fun r => s1.mPipelineBoundResources ++ r }
    refine ⟨rfl, ?_, ?_, ?_, ?_, ?_, ?_⟩
    · simp [isBindCall, List.countP_append, List.countP_cons]
    · simp [isUpdateCall, List.countP_append, List.countP_cons]
    · rw [f2]
    · rw [f11]
    · rw [f3]
      rw [alookup_updateAt_self]
      rw [alookup_append_of_none _ h3]
      simp [alookup, h3]
    · intro i hi
      rw [f3]
      rw [alookup_updateAt_ne _ _ hi]
      rw [alookup_append_single_ne _ _ hi]
  | some r =>
    dsimp only
    obtain ⟨f1, f2, f3, f4, f5, f6, f7, f8, f9, f10, f11, f12, f13, f14⟩ :=
      getOrCreate_fields { s1 with
        mDescriptorSets := setLastUsed s1.mDescriptorSets s1.mDescriptorRequirements
          s1.mCurrentTime,
        mBoundDescriptor := s1.mDescriptorRequirements,
        mDescriptorResources :=
          updateAt s1.mDescriptorResources ce.id
            fun r => s1.mPipelineBoundResources ++ r }
    refine ⟨rfl, ?_, ?_, ?_, ?_, ?_, ?_⟩
    · simp [isBindCall, List.countP_append, List.countP_cons]
    · simp [isUpdateCall, List.countP_append, List.countP_cons]
    · rw [f2]
    · rw [f11]
    · rw [f3]
      rw [alookup_updateAt_self]
      rw [h3]
      rfl
    · intro i hi
      rw [f3]
      rw [alookup_updateAt_ne _ _ hi]

/-! ## Claim theorems -/

/-- C2: `createDescriptorSets` invokes `growDescriptorPool` if and only if the
layout's first reclaim arena is empty and
`mDescriptorSets.size() + mDescriptorArenasCount + 1 > mDescriptorPoolSize`;
at most one growth event occurs per call (the trace counts exactly one growth
event under the condition and zero otherwise). -/
theorem C2_grow_iff_capacity_breach (s : CacheState) (alloc : Option (List Nat)) :
    ((createDescriptorSets s alloc).calls.countP isGrowPool)
      = if ((getOrCreatePipelineLayout s).1.descriptorSetArenas.getD 0 []).isEmpty = true
           ∧ s.mDescriptorSets.length + s.mDescriptorArenasCount + 1 > s.mDescriptorPoolSize
        then 1 else 0 := by
  by_cases hB : s.mDescriptorSets.length + s.mDescriptorArenasCount + 1 > s.mDescriptorPoolSize
  all_goals cases hL : alookup s.mPipelineLayouts s.mPipelineRequirementsLayout with
  | none =>
    have hG := getOrCreate_miss hL
    have hA : (((freshLayoutEntry s).descriptorSetArenas.getD 0 []).isEmpty) = true := rfl
    have hA' : (freshLayoutEntry s).descriptorSetArenas.getD 0 [] = [] := rfl
    rw [List.getD_eq_getElem?_getD] at hA'
    cases alloc with
    | none =>
      rw [createDS_fresh_fail hG hA]
      simp [hG, hA', hB, isGrowPool, List.countP_append, List.countP_cons]
    | some hs =>
      rw [createDS_fresh_some hs hG hA]
      dsimp only
      rw [finishCreate_calls]
      simp [hG, hA', hB, isGrowPool, List.countP_append, List.countP_cons]
  | some e =>
    have hG := getOrCreate_found hL
    cases hA : ((e.descriptorSetArenas.getD 0 []).isEmpty) with
    | true =>
      have hA' : e.descriptorSetArenas.getD 0 [] = [] := List.isEmpty_iff.mp hA
      rw [List.getD_eq_getElem?_getD] at hA'
      cases alloc with
      | none =>
        rw [createDS_fresh_fail hG hA]
        simp [hG, hA', hB, isGrowPool, List.countP_append, List.countP_cons]
      | some hs =>
        rw [createDS_fresh_some hs hG hA]
        dsimp only
        rw [finishCreate_calls]
        simp [hG, hA', hB, isGrowPool, List.countP_append, List.countP_cons]
    | false =>
      have hA' : e.descriptorSetArenas.getD 0 [] ≠ [] := by
        intro h
        rw [h] at hA
        simp at hA
      rw [List.getD_eq_getElem?_getD] at hA'
      rw [createDS_reuse alloc hG hA]
      rw [finishCreate_calls]
      simp [hG, hA', hB, isGrowPool, List.countP_append, List.countP_cons]

/-- C1: if the current descriptor requirements key is byte-equal
(`DescEqual`, i.e. structural equality of the padding-free key) to the bound
key and the descriptor-set map is non-empty, `bindDescriptors` performs no
creation, no allocation and no bind call — it only refreshes the matching
entry's `lastUsed` to the current timestamp and returns true.  If the map is
empty the fast path is not taken even when the keys match: with a successful
allocation outcome the call returns true after issuing a batched descriptor
write (creation) and a descriptor bind call, and the new entry is stored at
the requirements key. -/
theorem C1_bind_fast_path (s : CacheState) (alloc : Option (List Nat)) :
    (s.mBoundDescriptor = s.mDescriptorRequirements →
      s.mDescriptorSets.isEmpty = false →
      bindDescriptors s alloc =
        { ok := true,
          state := { s with
            mDescriptorSets := setLastUsed s.mDescriptorSets s.mDescriptorRequirements
              s.mCurrentTime },
          calls := [] })
    ∧ (s.mBoundDescriptor = s.mDescriptorRequirements →
      s.mDescriptorSets = [] →
      ∀ hs, alloc = some hs →
        (bindDescriptors s alloc).ok = true
        ∧ (bindDescriptors s alloc).calls.countP isUpdateCall = 1
        ∧ (bindDescriptors s alloc).calls.countP isBindCall = 1
        ∧ (alookup (bindDescriptors s alloc).state.mDescriptorSets
            s.mDescriptorRequirements).isSome = true) := by
  constructor
  · exact fun h1 h2 => bind_fast alloc h1 h2
  · intro h1 h2 hs halloc
    subst halloc
    have hfast : ¬ (s.mBoundDescriptor = s.mDescriptorRequirements ∧
        s.mDescriptorSets.isEmpty = false) := by
      rintro ⟨-, hne⟩
      rw [h2] at hne
      simp at hne
    have hmiss : alookup s.mDescriptorSets s.mDescriptorRequirements = none := by
      rw [h2]
      rfl
    obtain ⟨cbind, cupd, centry⟩ := createDS_calls_spec s (some hs)
    have hsome := centry hs rfl
    obtain ⟨ce, hce⟩ := Option.isSome_iff_exists.mp hsome
    rw [hce] at cupd
    simp only [Option.isSome_some, if_true] at cupd
    rw [bind_miss_ok hfast hmiss hce]
    obtain ⟨bok, bbind, bupd, bsets, bbound, bres, bresne⟩ :=
      bindTail_spec (createDescriptorSets s (some hs)).state ce
        (createDescriptorSets s (some hs)).calls
    refine ⟨bok, ?_, ?_, ?_⟩
    · rw [bupd, cupd]
    · rw [bbind, cbind]
    · obtain ⟨-, hspec⟩ := createDS_miss_spec s (some hs) hmiss
      obtain ⟨-, -, -, hstored⟩ := hspec ce hce
      obtain ⟨freq, -⟩ := createDS_fields s (some hs)
      rw [bsets, freq, setLastUsed, alookup_updateAt_self, hstored]
      rfl

/-- Witness for C1: the fast path at `stateFast` (bound = required = `keyA`,
cache non-empty) and the empty-map branch at `state0` (bound = required =
zero key, cache empty, successful allocation). -/
theorem C1_bind_fast_path_witness :
    (bindDescriptors stateFast none =
      { ok := true,
        state := { stateFast with
          mDescriptorSets := setLastUsed stateFast.mDescriptorSets
            stateFast.mDescriptorRequirements stateFast.mCurrentTime },
        calls := [] })
    ∧ (bindDescriptors state0 (some [21, 22, 23])).ok = true :=
  ⟨(C1_bind_fast_path stateFast none).1 rfl rfl,
   ((C1_bind_fast_path state0 (some [21, 22, 23])).2 rfl rfl [21, 22, 23] rfl).1⟩

/-- C6: on a cache miss with a non-empty first reclaim arena (under the
arena-balance invariant all three arenas are then non-empty, and the dormant
count is positive and in `uint32` range, as the code asserts),
`createDescriptorSets` pops exactly the last element of each of the three
arenas to form the new entry's handles, decrements `mDescriptorArenasCount`
by exactly one, and performs no pool allocation and no pool growth. -/
theorem C6_arena_reuse (s : CacheState) (alloc : Option (List Nat))
    (a0 a1 a2 : List Nat)
    (hmiss : alookup s.mDescriptorSets s.mDescriptorRequirements = none)
    (hAr : (getOrCreatePipelineLayout s).1.descriptorSetArenas = [a0, a1, a2])
    (h0 : a0 ≠ []) (h1 : a1 ≠ []) (h2 : a2 ≠ [])
    (hcnt : 0 < s.mDescriptorArenasCount)
    (hcnt32 : s.mDescriptorArenasCount < U32_MOD) :
    (∃ ce, (createDescriptorSets s alloc).entry = some ce
      ∧ ce.handles = [a0.getLastD 0, a1.getLastD 0, a2.getLastD 0])
    ∧ (createDescriptorSets s alloc).state.mDescriptorArenasCount
        = s.mDescriptorArenasCount - 1
    ∧ (alookup (createDescriptorSets s alloc).state.mPipelineLayouts
          s.mPipelineRequirementsLayout).map (fun le => le.descriptorSetArenas)
        = some [a0.dropLast, a1.dropLast, a2.dropLast]
    ∧ (createDescriptorSets s alloc).calls.countP isAllocCall = 0
    ∧ (createDescriptorSets s alloc).calls.countP isGrowPool = 0 := by
  cases hL : alookup s.mPipelineLayouts s.mPipelineRequirementsLayout with
  | none =>
    rw [getOrCreate_miss hL] at hAr
    have hnil : ([] : List Nat) = a0 := by
      have h3 : ([[], [], []] : List (List Nat)) = [a0, a1, a2] := hAr
      exact (List.cons.injEq _ _ _ _).mp h3 |>.1
    exact absurd hnil.symm h0
  | some e =>
    have hG := getOrCreate_found hL
    rw [hG] at hAr
    dsimp only at hAr
    have hA : (e.descriptorSetArenas.getD 0 []).isEmpty = false := by
      rw [hAr]
      cases a0 with
      | nil => exact absurd rfl h0
      | cons x xs => rfl
    rw [createDS_reuse alloc hG hA]
    rw [finishCreate_eq]
    dsimp only
    rw [hmiss]
    try dsimp only
    refine ⟨⟨_, rfl, by rw [hAr]; simp⟩, ?_, ?_, ?_, ?_⟩
    · show (s.mDescriptorArenasCount + (U32_MOD - 1)) % U32_MOD
        = s.mDescriptorArenasCount - 1
      unfold U32_MOD at hcnt32 ⊢
      omega
    · show (alookup (updateAt s.mPipelineLayouts s.mPipelineRequirementsLayout _)
          s.mPipelineRequirementsLayout).map _ = _
      rw [alookup_updateAt_self, hL]
      simp [hAr]
    · simp [isAllocCall, List.countP_append, List.countP_cons]
    · simp [isGrowPool, List.countP_append, List.countP_cons]

/-- Witness for C6 at `stateArena`: the popped handles are 31/32/33 and the
dormant count drops from 1 to 0. -/
theorem C6_arena_reuse_witness :
    ((createDescriptorSets stateArena none).entry.map (fun ce => ce.handles)
      = some [31, 32, 33])
    ∧ (createDescriptorSets stateArena none).state.mDescriptorArenasCount = 0 := by
  obtain ⟨⟨ce, hce, hh⟩, w2, -⟩ := C6_arena_reuse stateArena none [31] [32] [33] rfl rfl
    (by decide) (by decide) (by decide) (by decide) (by decide)
  refine ⟨?_, w2⟩
  rw [hce]
  simp [hh]

/-- C3 counterexample: at `stateGrow` an allocation failure returns false, as
claimed, but the descriptor-set map is NOT left unchanged — the pool growth
that preceded the failing allocation in the same call migrated the active
entries to the extinct list and emptied the map. -/
theorem C3_counterexample :
    (bindDescriptors stateGrow none).ok = false
    ∧ (bindDescriptors stateGrow none).state.mDescriptorSets = []
    ∧ stateGrow.mDescriptorSets ≠ []
    ∧ (bindDescriptors stateGrow none).state.mExtinctDescriptorBundles = [entryA] := by
  refine ⟨rfl, rfl, ?_, rfl⟩
  simp [stateGrow, state0]

/-- C3 (amended): if descriptor-set allocation fails, `bindDescriptors`
returns false; the bound key, the per-id resource map and the `lastUsed`
stamps are untouched, and no (partial) entry is ever inserted at the
requirements key.  The descriptor-set map itself is unchanged unless the same
call grew the pool first, in which case the growth (not the failure) moved
every active entry to the extinct-bundle list and emptied the map. -/
theorem C3_failure_leaves_cache_intact (s : CacheState)
    (hfast : ¬ (s.mBoundDescriptor = s.mDescriptorRequirements ∧
      s.mDescriptorSets.isEmpty = false))
    (hmiss : alookup s.mDescriptorSets s.mDescriptorRequirements = none)
    (hA : (((getOrCreatePipelineLayout s).1.descriptorSetArenas.getD 0 []).isEmpty)
      = true) :
    (bindDescriptors s none).ok = false
    ∧ (bindDescriptors s none).state.mBoundDescriptor = s.mBoundDescriptor
    ∧ (bindDescriptors s none).state.mDescriptorResources = s.mDescriptorResources
    ∧ alookup (bindDescriptors s none).state.mDescriptorSets
        s.mDescriptorRequirements = none
    ∧ (¬ (s.mDescriptorSets.length + s.mDescriptorArenasCount + 1
          > s.mDescriptorPoolSize) →
        (bindDescriptors s none).state.mDescriptorSets = s.mDescriptorSets)
    ∧ ((s.mDescriptorSets.length + s.mDescriptorArenasCount + 1
          > s.mDescriptorPoolSize) →
        (bindDescriptors s none).state.mDescriptorSets = []
        ∧ (bindDescriptors s none).state.mExtinctDescriptorBundles
            = s.mExtinctDescriptorBundles ++ s.mDescriptorSets.map Prod.snd) := by
  cases hL : alookup s.mPipelineLayouts s.mPipelineRequirementsLayout with
  | none =>
    have hG := getOrCreate_miss hL
    have hA2 : (((freshLayoutEntry s).descriptorSetArenas.getD 0 []).isEmpty)
        = true := rfl
    have hfail : (createDescriptorSets s none).entry = none := by
      rw [createDS_fresh_fail hG hA2]
    rw [bind_miss_fail hfast hmiss hfail]
    dsimp only
    rw [createDS_fresh_fail hG hA2]
    dsimp only
    by_cases hgrew :
        s.mDescriptorSets.length + s.mDescriptorArenasCount + 1 > s.mDescriptorPoolSize
    · rw [if_pos hgrew]
      exact ⟨rfl, rfl, rfl, rfl, fun hng => absurd hgrew hng,
        fun _ => ⟨rfl, rfl⟩⟩
    · rw [if_neg hgrew]
      exact ⟨rfl, rfl, rfl, hmiss, fun _ => rfl, fun hg => absurd hg hgrew⟩
  | some e =>
    have hG := getOrCreate_found hL
    rw [hG] at hA
    dsimp only at hA
    have hfail : (createDescriptorSets s none).entry = none := by
      rw [createDS_fresh_fail hG hA]
    rw [bind_miss_fail hfast hmiss hfail]
    dsimp only
    rw [createDS_fresh_fail hG hA]
    dsimp only
    by_cases hgrew :
        s.mDescriptorSets.length + s.mDescriptorArenasCount + 1 > s.mDescriptorPoolSize
    · rw [if_pos hgrew]
      exact ⟨rfl, rfl, rfl, rfl, fun hng => absurd hgrew hng,
        fun _ => ⟨rfl, rfl⟩⟩
    · rw [if_neg hgrew]
      exact ⟨rfl, rfl, rfl, hmiss, fun _ => rfl, fun hg => absurd hg hgrew⟩

/-- Witness for C3 (amended), at a no-growth failing state: `state0` with its
requirements set to `keyA` (empty map, capacity 512, allocation fails). -/
theorem C3_failure_leaves_cache_intact_witness :
    (bindDescriptors { state0 with mDescriptorRequirements := keyA } none).ok = false
    ∧ (bindDescriptors { state0 with mDescriptorRequirements := keyA } none
        ).state.mDescriptorSets
        = ({ state0 with mDescriptorRequirements := keyA } : CacheState).mDescriptorSets := by
  obtain ⟨w1, -, -, -, w5, -⟩ :=
    C3_failure_leaves_cache_intact { state0 with mDescriptorRequirements := keyA }
      (by decide) rfl rfl
  exact ⟨w1, w5 (by decide)⟩

theorem arenasBalanced_replicate (n : Nat) :
    arenasBalanced (List.replicate n ([] : List Nat)) := by
  intro a ha b hb
  rw [List.eq_of_mem_replicate ha, List.eq_of_mem_replicate hb]

theorem arenasBalanced_dropLast {l : List (List Nat)} (h : arenasBalanced l) :
    arenasBalanced (l.map fun a => a.dropLast) := by
  intro a ha b hb
  obtain ⟨a0, ha0, rfl⟩ := List.mem_map.mp ha
  obtain ⟨b0, hb0, rfl⟩ := List.mem_map.mp hb
  simp only [List.length_dropLast]
  rw [h a0 ha0 b0 hb0]

/-- The pipeline-layout map after `createDescriptorSets` is, in every branch:
the original map (possibly with the freshly created layout entry appended),
either untouched or with every entry's arenas cleared by a growth event; or,
on the reuse branch, the original map with the owning entry's arenas replaced
by their `dropLast`. -/
theorem createDS_layouts_cases (s : CacheState) (alloc : Option (List Nat)) :
    (∃ L1, (L1 = s.mPipelineLayouts
        ∨ L1 = s.mPipelineLayouts
            ++ [(s.mPipelineRequirementsLayout, freshLayoutEntry s)])
      ∧ ((createDescriptorSets s alloc).state.mPipelineLayouts = L1
        ∨ (createDescriptorSets s alloc).state.mPipelineLayouts
            = L1.map fun p => (p.1, clearArenas p.2)))
    ∨ (∃ e, alookup s.mPipelineLayouts s.mPipelineRequirementsLayout = some e
        ∧ (createDescriptorSets s alloc).state.mPipelineLayouts
          = updateAt s.mPipelineLayouts s.mPipelineRequirementsLayout
              fun le => { le with
                descriptorSetArenas := e.descriptorSetArenas.map
                  fun a => a.dropLast }) := by
  cases hL : alookup s.mPipelineLayouts s.mPipelineRequirementsLayout with
  | none =>
    have hG := getOrCreate_miss hL
    have hA : (((freshLayoutEntry s).descriptorSetArenas.getD 0 []).isEmpty)
        = true := rfl
    left
    refine ⟨s.mPipelineLayouts
      ++ [(s.mPipelineRequirementsLayout, freshLayoutEntry s)], Or.inr rfl, ?_⟩
    cases alloc with
    | none =>
      rw [createDS_fresh_fail hG hA]
      dsimp only
      by_cases hgrew :
          s.mDescriptorSets.length + s.mDescriptorArenasCount + 1
            > s.mDescriptorPoolSize
      · rw [if_pos hgrew]
        exact Or.inr rfl
      · rw [if_neg hgrew]
        exact Or.inl rfl
    | some hs =>
      rw [createDS_fresh_some hs hG hA]
      dsimp only
      by_cases hgrew :
          s.mDescriptorSets.length + s.mDescriptorArenasCount + 1
            > s.mDescriptorPoolSize
      · rw [if_pos hgrew]
        rw [(finishCreate_fields _ _ _).2.2.2.2.2.2.2.2.1]
        exact Or.inr rfl
      · rw [if_neg hgrew]
        rw [(finishCreate_fields _ _ _).2.2.2.2.2.2.2.2.1]
        exact Or.inl rfl
  | some e =>
    have hG := getOrCreate_found hL
    cases hA : ((e.descriptorSetArenas.getD 0 []).isEmpty) with
    | true =>
      left
      refine ⟨s.mPipelineLayouts, Or.inl rfl, ?_⟩
      cases alloc with
      | none =>
        rw [createDS_fresh_fail hG hA]
        dsimp only
        by_cases hgrew :
            s.mDescriptorSets.length + s.mDescriptorArenasCount + 1
              > s.mDescriptorPoolSize
        · rw [if_pos hgrew]
          exact Or.inr rfl
        · rw [if_neg hgrew]
          exact Or.inl rfl
      | some hs =>
        rw [createDS_fresh_some hs hG hA]
        dsimp only
        by_cases hgrew :
            s.mDescriptorSets.length + s.mDescriptorArenasCount + 1
              > s.mDescriptorPoolSize
        · rw [if_pos hgrew]
          rw [(finishCreate_fields _ _ _).2.2.2.2.2.2.2.2.1]
          exact Or.inr rfl
        · rw [if_neg hgrew]
          rw [(finishCreate_fields _ _ _).2.2.2.2.2.2.2.2.1]
          exact Or.inl rfl
    | false =>
      right
      refine ⟨e, rfl, ?_⟩
      rw [createDS_reuse alloc hG hA]
      rw [(finishCreate_fields _ _ _).2.2.2.2.2.2.2.2.1]

theorem arenasBalanced_fresh : arenasBalanced [[], [], []] := by
  intro a ha b hb
  fin_cases ha <;> fin_cases hb <;> rfl

/-- C9: the equal-arena-length invariant of a pipeline-layout cache entry is
preserved by `createDescriptorSets` for every entry of the layout map (a
growth event clears all arenas, which is also balanced; a freshly created
entry starts balanced); and for the owning layout entry, under the invariant,
the call either leaves the three arenas unchanged (fresh-allocation branch,
taken when the first arena is empty) or pops exactly one set from each
(reuse branch), so checking only the first arena decides availability of a
full bundle. -/
theorem C9_arena_balance (s : CacheState) (alloc : Option (List Nat)) :
    (∀ k e', alookup (createDescriptorSets s alloc).state.mPipelineLayouts k
        = some e' →
      (∀ e, alookup s.mPipelineLayouts k = some e →
        arenasBalanced e.descriptorSetArenas) →
      arenasBalanced e'.descriptorSetArenas)
    ∧ (∀ a0 a1 a2,
        (getOrCreatePipelineLayout s).1.descriptorSetArenas = [a0, a1, a2] →
        a1.length = a0.length → a2.length = a0.length →
        ((a0 = [] →
          (alookup (createDescriptorSets s alloc).state.mPipelineLayouts
              s.mPipelineRequirementsLayout).map (fun le => le.descriptorSetArenas)
            = some [a0, a1, a2])
        ∧ (a0 ≠ [] →
          (alookup (createDescriptorSets s alloc).state.mPipelineLayouts
              s.mPipelineRequirementsLayout).map (fun le => le.descriptorSetArenas)
            = some [a0.dropLast, a1.dropLast, a2.dropLast]))) := by
  constructor
  · intro k e' hk' hbal
    rcases createDS_layouts_cases s alloc with ⟨L1, hL1, hcase⟩ | ⟨e, hLe, heq⟩
    · rcases hcase with h | h
      · rw [h] at hk'
        rcases hL1 with rfl | rfl
        · exact hbal e' hk'
        · cases hsk : alookup s.mPipelineLayouts k with
          | some e0 =>
            rw [alookup_append_of_some _ hsk] at hk'
            obtain rfl := Option.some_injective _ hk'
            exact hbal _ hsk
          | none =>
            rw [alookup_append_of_none _ hsk] at hk'
            by_cases hko : s.mPipelineRequirementsLayout = k
            · have hone : alookup [(s.mPipelineRequirementsLayout, freshLayoutEntry s)] k
                  = some (freshLayoutEntry s) := by
                simp [alookup, hko]
              rw [hone] at hk'
              obtain rfl := Option.some_injective _ hk'
              exact arenasBalanced_fresh
            · have hone : alookup [(s.mPipelineRequirementsLayout, freshLayoutEntry s)] k
                  = none := by
                simp [alookup, hko]
              rw [hone] at hk'
              exact absurd hk' (by simp)
      · rw [h, alookup_mapVals] at hk'
        cases hx : alookup L1 k with
        | none =>
          rw [hx] at hk'
          simp at hk'
        | some e0 =>
          rw [hx] at hk'
          obtain rfl := Option.some_injective _ hk'
          exact arenasBalanced_replicate _
    · rw [heq] at hk'
      by_cases hko : k = s.mPipelineRequirementsLayout
      · subst hko
        rw [alookup_updateAt_self, hLe] at hk'
        obtain rfl := Option.some_injective _ hk'
        exact arenasBalanced_dropLast (hbal e hLe)
      · rw [alookup_updateAt_ne _ _ hko] at hk'
        exact hbal _ hk'
  · intro a0 a1 a2 hAr hlen1 hlen2
    cases hL : alookup s.mPipelineLayouts s.mPipelineRequirementsLayout with
    | none =>
      have hG := getOrCreate_miss hL
      rw [hG] at hAr
      dsimp only at hAr
      have h3 : ([[], [], []] : List (List Nat)) = [a0, a1, a2] := hAr
      obtain ⟨h0, h1', h2', -⟩ :
          ([] : List Nat) = a0 ∧ ([] : List Nat) = a1 ∧ ([] : List Nat) = a2 ∧ True := by
        injection h3 with ha hrest
        injection hrest with hb hrest2
        injection hrest2 with hc hrest3
        exact ⟨ha, hb, hc, trivial⟩
      refine ⟨fun _ => ?_, fun hne => absurd h0.symm hne⟩
      have hA : (((freshLayoutEntry s).descriptorSetArenas.getD 0 []).isEmpty)
          = true := rfl
      have hkey : alookup (s.mPipelineLayouts
          ++ [(s.mPipelineRequirementsLayout, freshLayoutEntry s)])
          s.mPipelineRequirementsLayout = some (freshLayoutEntry s) := by
        rw [alookup_append_of_none _ hL]
        simp [alookup]
      cases alloc with
      | none =>
        rw [createDS_fresh_fail hG hA]
        dsimp only
        by_cases hgrew :
            s.mDescriptorSets.length + s.mDescriptorArenasCount + 1
              > s.mDescriptorPoolSize
        · rw [if_pos hgrew]
          show (alookup ((s.mPipelineLayouts ++ _).map _) _).map _ = _
          rw [alookup_mapVals, hkey]
          dsimp only [Option.map]
          rw [← h0, ← h1', ← h2']
          rfl
        · rw [if_neg hgrew]
          show (alookup (s.mPipelineLayouts ++ _) _).map _ = _
          rw [hkey]
          dsimp only [Option.map]
          rw [← h0, ← h1', ← h2']
          rfl
      | some hs =>
        rw [createDS_fresh_some hs hG hA]
        dsimp only
        by_cases hgrew :
            s.mDescriptorSets.length + s.mDescriptorArenasCount + 1
              > s.mDescriptorPoolSize
        · rw [if_pos hgrew]
          rw [(finishCreate_fields _ _ _).2.2.2.2.2.2.2.2.1]
          show (alookup ((s.mPipelineLayouts ++ _).map _) _).map _ = _
          rw [alookup_mapVals, hkey]
          dsimp only [Option.map]
          rw [← h0, ← h1', ← h2']
          rfl
        · rw [if_neg hgrew]
          rw [(finishCreate_fields _ _ _).2.2.2.2.2.2.2.2.1]
          show (alookup (s.mPipelineLayouts ++ _) _).map _ = _
          rw [hkey]
          dsimp only [Option.map]
          rw [← h0, ← h1', ← h2']
          rfl
    | some e =>
      have hG := getOrCreate_found hL
      rw [hG] at hAr
      dsimp only at hAr
      cases hA : ((e.descriptorSetArenas.getD 0 []).isEmpty) with
      | true =>
        have h0 : a0 = [] := by
          rw [hAr] at hA
          exact List.isEmpty_iff.mp hA
        have h1' : a1 = [] := List.eq_nil_of_length_eq_zero (by rw [hlen1, h0]; rfl)
        have h2' : a2 = [] := List.eq_nil_of_length_eq_zero (by rw [hlen2, h0]; rfl)
        refine ⟨fun _ => ?_, fun hne => absurd h0 hne⟩
        cases alloc with
        | none =>
          rw [createDS_fresh_fail hG hA]
          dsimp only
          by_cases hgrew :
              s.mDescriptorSets.length + s.mDescriptorArenasCount + 1
                > s.mDescriptorPoolSize
          · rw [if_pos hgrew]
            show (alookup (s.mPipelineLayouts.map _) _).map _ = _
            rw [alookup_mapVals, hL]
            dsimp only [Option.map]
            rw [h0, h1', h2']
            rfl
          · rw [if_neg hgrew]
            show (alookup s.mPipelineLayouts _).map _ = _
            rw [hL]
            dsimp only [Option.map]
            rw [hAr]
        | some hs =>
          rw [createDS_fresh_some hs hG hA]
          dsimp only
          by_cases hgrew :
              s.mDescriptorSets.length + s.mDescriptorArenasCount + 1
                > s.mDescriptorPoolSize
          · rw [if_pos hgrew]
            rw [(finishCreate_fields _ _ _).2.2.2.2.2.2.2.2.1]
            show (alookup (s.mPipelineLayouts.map _) _).map _ = _
            rw [alookup_mapVals, hL]
            dsimp only [Option.map]
            rw [h0, h1', h2']
            rfl
          · rw [if_neg hgrew]
            rw [(finishCreate_fields _ _ _).2.2.2.2.2.2.2.2.1]
            show (alookup s.mPipelineLayouts _).map _ = _
            rw [hL]
            dsimp only [Option.map]
            rw [hAr]
      | false =>
        have h0 : a0 ≠ [] := by
          intro hnil
          rw [hAr, hnil] at hA
          simp at hA
        refine ⟨fun heq => absurd heq h0, fun _ => ?_⟩
        rw [createDS_reuse alloc hG hA]
        rw [(finishCreate_fields _ _ _).2.2.2.2.2.2.2.2.1]
        rw [alookup_updateAt_self, hL]
        simp [hAr]

set_option maxRecDepth 8000 in
/-- Witness for C9 at `stateArena`: the reuse branch pops one set from each
arena ([[31],[32],[33]] becomes [[],[],[]]), and the result is balanced. -/
theorem C9_arena_balance_witness :
    arenasBalanced [[], [], []]
    ∧ (alookup (createDescriptorSets stateArena none).state.mPipelineLayouts
        3).map (fun le => le.descriptorSetArenas) = some [[], [], []] := by
  constructor
  · exact (C9_arena_balance stateArena none).1 3 arenaEntryPopped rfl
      (fun e he => by
        have hr : arenaEntryFull = e := Option.some_injective _ he
        rw [← hr]
        decide)
  · obtain ⟨-, h2⟩ := (C9_arena_balance stateArena none).2 [31] [32] [33] rfl rfl rfl
    exact h2 (by decide)

/-- C7 counterexample: the early-return fast path is a successful
`bindDescriptors` call that acquires nothing — the pipeline-bound tracker of
`stateFast` holds resource 42, yet the per-id resource map stays empty and no
call (hence no acquire-triggering bind) is made. -/
theorem C7_counterexample :
    (bindDescriptors stateFast none).ok = true
    ∧ stateFast.mPipelineBoundResources ≠ []
    ∧ (bindDescriptors stateFast none).state.mDescriptorResources = []
    ∧ (bindDescriptors stateFast none).calls = [] := by
  refine ⟨rfl, ?_, rfl, rfl⟩
  simp [stateFast, state0]

/-- C7 (amended): on every successful `bindDescriptors` call that does not
take the early-return fast path — a map hit or a creation miss — the
resources held by the pipeline-bound tracker are acquired into the per-entry
tracker looked up by the entry's id (the hit entry's id, or the fresh
counter value on a miss), the tracker being created first if absent; all
other ids' trackers are untouched. -/
theorem C7_resource_acquire (s : CacheState) (alloc : Option (List Nat))
    (hfast : ¬ (s.mBoundDescriptor = s.mDescriptorRequirements ∧
      s.mDescriptorSets.isEmpty = false))
    (hok : (bindDescriptors s alloc).ok = true) :
    ∃ i,
      (match alookup s.mDescriptorSets s.mDescriptorRequirements with
        | some e => i = e.id
        | none => i = s.mDescriptorCacheEntryCount)
      ∧ alookup (bindDescriptors s alloc).state.mDescriptorResources i
          = some (s.mPipelineBoundResources
              ++ (alookup s.mDescriptorResources i).getD [])
      ∧ (∀ j, j ≠ i → alookup (bindDescriptors s alloc).state.mDescriptorResources j
          = alookup s.mDescriptorResources j) := by
  cases hfound : alookup s.mDescriptorSets s.mDescriptorRequirements with
  | some e =>
    rw [bind_nofast_hit alloc hfast hfound]
    obtain ⟨-, -, -, -, -, hres, hresne⟩ := bindTail_spec s e []
    exact ⟨e.id, rfl, hres, hresne⟩
  | none =>
    cases hce : (createDescriptorSets s alloc).entry with
    | none =>
      rw [bind_miss_fail hfast hfound hce] at hok
      exact absurd hok (by simp)
    | some ce =>
      rw [bind_miss_ok hfast hfound hce]
      obtain ⟨-, -, -, -, -, hres, hresne⟩ :=
        bindTail_spec (createDescriptorSets s alloc).state ce
          (createDescriptorSets s alloc).calls
      obtain ⟨-, -, hfres, hfbound, -, -, -⟩ := createDS_fields s alloc
      obtain ⟨-, hspec⟩ := createDS_miss_spec s alloc hfound
      obtain ⟨hid, -, -, -⟩ := hspec ce hce
      rw [hfres] at hres hresne
      rw [hfbound] at hres
      exact ⟨ce.id, hid, hres, hresne⟩

/-- Witness for C7 at `stateHit` (cache hit on `keyA`, entry id 0, no prior
tracker): resource 42 is acquired into the lazily created tracker for id 0. -/
theorem C7_resource_acquire_witness :
    alookup (bindDescriptors stateHit none).state.mDescriptorResources 0
      = some [42] := by
  obtain ⟨i, hid, hacq, -⟩ := C7_resource_acquire stateHit none (by decide) rfl
  have h0 : i = entryA.id := by
    rw [show alookup stateHit.mDescriptorSets stateHit.mDescriptorRequirements
      = some entryA from rfl] at hid
    exact hid
  rw [h0] at hacq
  exact hacq

/-! ## Device-contents lemmas -/

theorem applyWrites_untouched {ws : List VkWriteDescriptorSet} {ds b : Nat}
    (h : ∀ w ∈ ws, ¬ targets w ds b) (g : DeviceContents) :
    applyWrites g ws ds b = g ds b := by
  induction ws generalizing g with
  | nil => rfl
  | cons w rest ih =>
    have hw : ¬ targets w ds b := h w (List.mem_cons_self w rest)
    have hrest : ∀ w' ∈ rest, ¬ targets w' ds b :=
      fun w' hw' => h w' (List.mem_cons_of_mem w hw')
    show applyWrites (applyWrite g w) rest ds b = g ds b
    rw [ih hrest]
    unfold applyWrite
    rw [if_neg hw]

theorem applyWrites_covered {ws : List VkWriteDescriptorSet} {ds b : Nat}
    (h : ∃ w ∈ ws, targets w ds b) (g g' : DeviceContents) :
    applyWrites g ws ds b = applyWrites g' ws ds b := by
  induction ws generalizing g g' with
  | nil =>
    obtain ⟨w, hw, -⟩ := h
    exact absurd hw (List.not_mem_nil w)
  | cons w rest ih =>
    show applyWrites (applyWrite g w) rest ds b
      = applyWrites (applyWrite g' w) rest ds b
    by_cases hrest : ∃ w' ∈ rest, targets w' ds b
    · exact ih hrest _ _
    · push_neg at hrest
      have hw : targets w ds b := by
        obtain ⟨w', hw', ht⟩ := h
        rcases List.mem_cons.mp hw' with rfl | hmem
        · exact ht
        · exact absurd ht (hrest w' hmem)
      rw [applyWrites_untouched hrest, applyWrites_untouched hrest]
      unfold applyWrite
      rw [if_pos hw, if_pos hw]

theorem uniformWrite_targets (req : DescriptorKey) (dummy : VkWriteDescriptorSet)
    (h0 b : Nat) : targets (uniformWrite req dummy h0 b) h0 b := by
  unfold uniformWrite targets
  split <;> exact ⟨rfl, rfl⟩

/-- The batched write list covers every uniform slot of the uniform set. -/
theorem buildWrites_covers_uniform (req : DescriptorKey)
    (dummy : VkWriteDescriptorSet) (hs : List Nat) {b : Nat}
    (hb : b < UBUFFER_BINDING_COUNT) :
    ∃ w ∈ buildWrites req dummy hs, targets w (hs.getD 0 0) b := by
  refine ⟨uniformWrite req dummy (hs.getD 0 0) b, ?_, uniformWrite_targets _ _ _ _⟩
  unfold buildWrites
  refine List.mem_append_left _ (List.mem_append_left _ ?_)
  exact List.mem_map.mpr ⟨b, List.mem_range.mpr hb, rfl⟩

/-- The batched write list covers every sampler slot that is active in the
requirements. -/
theorem buildWrites_covers_sampler (req : DescriptorKey)
    (dummy : VkWriteDescriptorSet) (hs : List Nat) {b : Nat}
    (hb : b < SAMPLER_BINDING_COUNT)
    (hact : (req.samplers.getD b zeroImageInfo).sampler ≠ 0) :
    ∃ w ∈ buildWrites req dummy hs, targets w (hs.getD 1 0) b := by
  refine ⟨samplerWrite req (hs.getD 1 0) b, ?_, ⟨rfl, rfl⟩⟩
  unfold buildWrites
  refine List.mem_append_left _ (List.mem_append_right _ ?_)
  refine List.mem_filterMap.mpr ⟨b, List.mem_range.mpr hb, ?_⟩
  rw [if_pos hact]

/-- The batched write list covers every input-attachment slot that is active
in the requirements. -/
theorem buildWrites_covers_input (req : DescriptorKey)
    (dummy : VkWriteDescriptorSet) (hs : List Nat) {b : Nat}
    (hb : b < INPUT_ATTACHMENT_COUNT)
    (hact : (req.inputAttachments.getD b zeroImageInfo).imageView ≠ 0) :
    ∃ w ∈ buildWrites req dummy hs, targets w (hs.getD 2 0) b := by
  refine ⟨inputAttachmentWrite req (hs.getD 2 0) b, ?_, ⟨rfl, rfl⟩⟩
  unfold buildWrites
  refine List.mem_append_right _ ?_
  refine List.mem_filterMap.mpr ⟨b, List.mem_range.mpr hb, ?_⟩
  rw [if_pos hact]

/-- C4 counterexample: `stateArena` reuses the arena set 32 for samplers while
no sampler slot is active in `keyA`; the batched update leaves slot (32, 0)
untouched, so two device states that differ in what the set's previous use
wrote there still differ after the update — the stale binding remains
observable, contradicting "every writable slot is rewritten". -/
theorem C4_counterexample :
    (createDescriptorSets stateArena none).calls
      = [VkCall.updateDescriptorSets (buildWrites keyA dummyWrite0 [31, 32, 33])]
    ∧ applyWrites (fun _ _ => { bufferInfo := none, imageInfo := none })
        (buildWrites keyA dummyWrite0 [31, 32, 33]) 32 0
      ≠ applyWrites
        (fun ds b => if ds = 32 ∧ b = 0
          then { bufferInfo := none,
                 imageInfo := some { sampler := 9, imageView := 9, imageLayout := 9 } }
          else { bufferInfo := none, imageInfo := none })
        (buildWrites keyA dummyWrite0 [31, 32, 33]) 32 0 := by
  exact ⟨rfl, by decide⟩

/-- C4 (amended): when `createDescriptorSets` reuses a set bundle from the
reclaim arenas, the single batched update rewrites every uniform-buffer slot
of the reused uniform set (its contents after the update are independent of
whatever the set held before), and rewrites a sampler or input-attachment
slot of the reused sets whenever that slot is active in the current
requirements; slots of the sampler/input sets that are inactive in the
current requirements are not written (see the counterexample: stale bindings
there can persist). -/
theorem C4_reuse_rewrites (s : CacheState) (alloc : Option (List Nat))
    (a0 a1 a2 : List Nat)
    (hAr : (getOrCreatePipelineLayout s).1.descriptorSetArenas = [a0, a1, a2])
    (h0 : a0 ≠ []) :
    ∃ ws, (createDescriptorSets s alloc).calls = [VkCall.updateDescriptorSets ws]
      ∧ (∀ b, b < UBUFFER_BINDING_COUNT → ∀ g g' : DeviceContents,
          applyWrites g ws (a0.getLastD 0) b = applyWrites g' ws (a0.getLastD 0) b)
      ∧ (∀ b, b < SAMPLER_BINDING_COUNT →
          (s.mDescriptorRequirements.samplers.getD b zeroImageInfo).sampler ≠ 0 →
          ∀ g g' : DeviceContents,
          applyWrites g ws (a1.getLastD 0) b = applyWrites g' ws (a1.getLastD 0) b)
      ∧ (∀ b, b < INPUT_ATTACHMENT_COUNT →
          (s.mDescriptorRequirements.inputAttachments.getD b
            zeroImageInfo).imageView ≠ 0 →
          ∀ g g' : DeviceContents,
          applyWrites g ws (a2.getLastD 0) b
            = applyWrites g' ws (a2.getLastD 0) b) := by
  cases hL : alookup s.mPipelineLayouts s.mPipelineRequirementsLayout with
  | none =>
    rw [getOrCreate_miss hL] at hAr
    dsimp only at hAr
    have h3 : ([[], [], []] : List (List Nat)) = [a0, a1, a2] := hAr
    injection h3 with ha hrest
    exact absurd ha.symm h0
  | some e =>
    have hG := getOrCreate_found hL
    rw [hG] at hAr
    dsimp only at hAr
    have hA : (e.descriptorSetArenas.getD 0 []).isEmpty = false := by
      rw [hAr]
      cases a0 with
      | nil => exact absurd rfl h0
      | cons x xs => rfl
    have hcalls : (createDescriptorSets s alloc).calls
        = [VkCall.updateDescriptorSets
            (buildWrites s.mDescriptorRequirements s.mDummyBufferWriteInfo
              [a0.getLastD 0, a1.getLastD 0, a2.getLastD 0])] := by
      rw [createDS_reuse alloc hG hA]
      rw [finishCreate_calls]
      dsimp only
      rw [hAr]
      rfl
    refine ⟨buildWrites s.mDescriptorRequirements s.mDummyBufferWriteInfo
      [a0.getLastD 0, a1.getLastD 0, a2.getLastD 0], hcalls, ?_, ?_, ?_⟩
    · intro b hb g g'
      exact applyWrites_covered
        (buildWrites_covers_uniform s.mDescriptorRequirements
          s.mDummyBufferWriteInfo _ hb) g g'
    · intro b hb hact g g'
      exact applyWrites_covered
        (buildWrites_covers_sampler s.mDescriptorRequirements
          s.mDummyBufferWriteInfo _ hb hact) g g'
    · intro b hb hact g g'
      exact applyWrites_covered
        (buildWrites_covers_input s.mDescriptorRequirements
          s.mDummyBufferWriteInfo _ hb hact) g g'

/-- Witness for C4 (amended) at `stateArena`: uniform slot 0 of the reused
set 31 ends up identical after the batched update no matter what the set's
previous device-side contents were. -/
theorem C4_reuse_rewrites_witness :
    applyWrites (fun _ _ => { bufferInfo := none, imageInfo := none })
        (buildWrites keyA dummyWrite0 [31, 32, 33]) 31 0
      = applyWrites
        (fun _ _ => { bufferInfo := some { buffer := 8, offset := 8, range := 8 },
                      imageInfo := none })
        (buildWrites keyA dummyWrite0 [31, 32, 33]) 31 0 := by
  obtain ⟨ws, hcalls, huni, -, -⟩ :=
    C4_reuse_rewrites stateArena none [31] [32] [33] rfl (by decide)
  have h2 : (createDescriptorSets stateArena none).calls
      = [VkCall.updateDescriptorSets (buildWrites keyA dummyWrite0 [31, 32, 33])] := rfl
  have h3 := hcalls.symm.trans h2
  injection h3 with h4 h4t
  injection h4 with h5
  rw [← h5]
  exact huni 0 (by decide) _ _

/-- C5 counterexample: at `state0` (no uniform buffer bound at slot 0, dummy
write targeting the placeholder buffer with `dstSet = 0`), the write emitted
for the inactive slot 0 is NOT equal to the pre-built dummy write: its
destination set and binding have been retargeted to the freshly allocated
set. -/
theorem C5_counterexample :
    state0.mDescriptorRequirements.uniformBuffers.getD 0 0 = 0
    ∧ (createDescriptorSets state0 (some [10, 11, 12])).calls
        = [VkCall.allocateDescriptorSets 1 true,
           VkCall.updateDescriptorSets
             (buildWrites zeroDescriptorKey dummyWrite0 [10, 11, 12])]
    ∧ (buildWrites zeroDescriptorKey dummyWrite0 [10, 11, 12]).getD 0 dummyWrite0
        ≠ dummyWrite0 := by
  refine ⟨rfl, rfl, ?_⟩
  decide

/-- C5 (amended): the uniform section of the batched write list has exactly
one write per uniform slot, in slot order; an active slot's write carries the
slot's buffer, offset and size with the internal `WHOLE_SIZE` sentinel
translated to `VK_WHOLE_SIZE`; an inactive slot's write is the pre-built
dummy placeholder-buffer write with only its destination set and binding
retargeted; and all writes of a successful creation are submitted in a
single `vkUpdateDescriptorSets` call. -/
theorem C5_uniform_writes :
    (∀ (req : DescriptorKey) (dummy : VkWriteDescriptorSet) (hs : List Nat),
      (buildWrites req dummy hs).take UBUFFER_BINDING_COUNT
        = (List.range UBUFFER_BINDING_COUNT).map
            (fun b => uniformWrite req dummy (hs.getD 0 0) b)
      ∧ (∀ b, req.uniformBuffers.getD b 0 ≠ 0 →
          uniformWrite req dummy (hs.getD 0 0) b =
            { dstSet := hs.getD 0 0, dstBinding := b, dstArrayElement := 0,
              descriptorCount := 1,
              descriptorType := VkDescriptorType.uniformBuffer,
              bufferInfo := some
                { buffer := req.uniformBuffers.getD b 0,
                  offset := req.uniformBufferOffsets.getD b 0,
                  range := if req.uniformBufferSizes.getD b 0 = WHOLE_SIZE
                    then VK_WHOLE_SIZE else req.uniformBufferSizes.getD b 0 },
              imageInfo := none })
      ∧ (∀ b, req.uniformBuffers.getD b 0 = 0 →
          uniformWrite req dummy (hs.getD 0 0) b
            = { dummy with dstSet := hs.getD 0 0, dstBinding := b }))
    ∧ (∀ (s : CacheState) (alloc : Option (List Nat)),
        (createDescriptorSets s alloc).entry.isSome = true →
        (createDescriptorSets s alloc).calls.countP isUpdateCall = 1) := by
  constructor
  · intro req dummy hs
    refine ⟨?_, ?_, ?_⟩
    · unfold buildWrites
      rw [List.append_assoc]
      rw [List.take_left' (by simp)]
    · intro b hact
      unfold uniformWrite
      rw [if_pos hact]
    · intro b hinact
      unfold uniformWrite
      rw [List.getD_eq_getElem?_getD] at hinact
      rw [if_neg (by simp [hinact])]
  · intro s alloc hsome
    obtain ⟨-, hcnt, -⟩ := createDS_calls_spec s alloc
    rw [hcnt, hsome, if_pos rfl]

/-- Witness for C5 at `keyA` / `dummyWrite0`: the uniform section is the ten
slot writes in order; slot 0 is active with the sentinel size, slot 1 is
inactive; and the concrete creation at `state0` issues exactly one update
call. -/
theorem C5_uniform_writes_witness :
    uniformWrite keyA dummyWrite0 10 0 =
      { dstSet := 10, dstBinding := 0, dstArrayElement := 0, descriptorCount := 1,
        descriptorType := VkDescriptorType.uniformBuffer,
        bufferInfo := some { buffer := 5, offset := 0, range := VK_WHOLE_SIZE },
        imageInfo := none }
    ∧ uniformWrite keyA dummyWrite0 10 1
        = { dummyWrite0 with dstSet := 10, dstBinding := 1 }
    ∧ (createDescriptorSets state0 (some [10, 11, 12])).calls.countP isUpdateCall
        = 1 := by
  obtain ⟨hsec, hact, hinact⟩ :=
    C5_uniform_writes.1 keyA dummyWrite0 [10, 11, 12]
  refine ⟨?_, ?_, ?_⟩
  · rw [show ([10, 11, 12] : List Nat).getD 0 0 = 10 from rfl] at hact
    rw [hact 0 (by decide)]
    decide
  · rw [show ([10, 11, 12] : List Nat).getD 0 0 = 10 from rfl] at hinact
    rw [hinact 1 (by decide)]
  · exact C5_uniform_writes.2 state0 (some [10, 11, 12]) rfl

/-- C8: equality under the cache's equality functors (`DescEqual`,
`PipelineEqual`, modelled from the spec as byte-image equality) implies equal
`MurmurHashFn` values, for both `DescriptorKey` and `PipelineKey`; both the
equality and the hash are computed over the full byte image of the key (the
word serialization, which carries the explicitly zeroed padding words), so
zero-initialized padding cannot make equal keys hash differently. -/
theorem C8_hash_equality_consistency :
    (∀ k1 k2 : DescriptorKey, DescEqual k1 k2 = true → DescHashFn k1 = DescHashFn k2)
    ∧ (∀ p1 p2 : PipelineKey, PipelineEqual p1 p2 = true →
        PipelineHashFn p1 = PipelineHashFn p2)
    ∧ (∀ k1 k2 : DescriptorKey, DescEqual k1 k2 = true ↔ k1.words = k2.words)
    ∧ (∀ p1 p2 : PipelineKey, PipelineEqual p1 p2 = true ↔ p1.words = p2.words) := by
  refine ⟨?_, ?_, ?_, ?_⟩
  · intro k1 k2 h
    have hw : k1.words = k2.words := of_decide_eq_true h
    unfold DescHashFn
    rw [hw]
  · intro p1 p2 h
    have hw : p1.words = p2.words := of_decide_eq_true h
    unfold PipelineHashFn
    rw [hw]
  · intro k1 k2
    exact decide_eq_true_iff
  · intro p1 p2
    exact decide_eq_true_iff

set_option maxRecDepth 4000 in
/-- Witness for C8: concrete equal keys hash equal, and a pipeline key that
differs only in the raster-state bits is not byte-image equal. -/
theorem C8_hash_equality_consistency_witness :
    DescEqual keyA keyA = true
    ∧ DescHashFn keyA = DescHashFn keyA
    ∧ PipelineEqual pipeKey0 pipeKey0 = true
    ∧ PipelineHashFn pipeKey0 = PipelineHashFn pipeKey0
    ∧ PipelineEqual pipeKey0 pipeKey1 = false :=
  ⟨by decide,
   C8_hash_equality_consistency.1 keyA keyA (by decide),
   by decide,
   C8_hash_equality_consistency.2.1 pipeKey0 pipeKey0 (by decide),
   by decide⟩

/-! ## Lemmas for the entry-id invariant -/

theorem not_mem_keys_of_alookup_none {α β : Type} [DecidableEq α]
    {m : List (α × β)} {k : α} (h : alookup m k = none) :
    k ∉ m.map Prod.fst := by
  induction m with
  | nil => simp
  | cons p rest ih =>
    by_cases hp : p.1 = k
    · simp [alookup, hp] at h
    · simp only [alookup, hp, if_false] at h
      simp only [List.map_cons, List.mem_cons]
      rintro (hk | hk)
      · exact hp hk.symm
      · exact ih h hk

/-- `createDescriptorSets` increments the entry counter (mod `2^32`) on every
call, successful or failed. -/
theorem createDS_count (s : CacheState) (alloc : Option (List Nat)) :
    (createDescriptorSets s alloc).state.mDescriptorCacheEntryCount
      = (s.mDescriptorCacheEntryCount + 1) % U32_MOD := by
  cases hL : alookup s.mPipelineLayouts s.mPipelineRequirementsLayout with
  | none =>
    have hG := getOrCreate_miss hL
    have hA : (((freshLayoutEntry s).descriptorSetArenas.getD 0 []).isEmpty)
        = true := rfl
    cases alloc with
    | none =>
      rw [createDS_fresh_fail hG hA]
      dsimp only
      by_cases hgrew :
          s.mDescriptorSets.length + s.mDescriptorArenasCount + 1
            > s.mDescriptorPoolSize
      · rw [if_pos hgrew]
        rfl
      · rw [if_neg hgrew]
    | some hs =>
      rw [createDS_fresh_some hs hG hA]
      dsimp only
      by_cases hgrew :
          s.mDescriptorSets.length + s.mDescriptorArenasCount + 1
            > s.mDescriptorPoolSize
      · rw [if_pos hgrew]
        rw [(finishCreate_fields _ _ _).1]
        rfl
      · rw [if_neg hgrew]
        rw [(finishCreate_fields _ _ _).1]
  | some e =>
    have hG := getOrCreate_found hL
    cases hA : ((e.descriptorSetArenas.getD 0 []).isEmpty) with
    | true =>
      cases alloc with
      | none =>
        rw [createDS_fresh_fail hG hA]
        dsimp only
        by_cases hgrew :
            s.mDescriptorSets.length + s.mDescriptorArenasCount + 1
              > s.mDescriptorPoolSize
        · rw [if_pos hgrew]
          rfl
        · rw [if_neg hgrew]
      | some hs =>
        rw [createDS_fresh_some hs hG hA]
        dsimp only
        by_cases hgrew :
            s.mDescriptorSets.length + s.mDescriptorArenasCount + 1
              > s.mDescriptorPoolSize
        · rw [if_pos hgrew]
          rw [(finishCreate_fields _ _ _).1]
          rfl
        · rw [if_neg hgrew]
          rw [(finishCreate_fields _ _ _).1]
    | false =>
      rw [createDS_reuse alloc hG hA]
      rw [(finishCreate_fields _ _ _).1]

/-- In a run of misses whose total length does not wrap the 32-bit counter,
the k-th call's returned entry carries id `initial counter + k`. -/
theorem runCreates_id (inputs : List (DescriptorKey × Option (List Nat))) :
    ∀ s : CacheState, allMisses s inputs = true →
    s.mDescriptorCacheEntryCount + inputs.length ≤ U32_MOD →
    ∀ k e, k < inputs.length → (runCreates s inputs).1.getD k none = some e →
    e.id = s.mDescriptorCacheEntryCount + k := by
  induction inputs with
  | nil =>
    intro s hm hb k e hk
    exact absurd hk (by simp)
  | cons input rest ih =>
    intro s hm hb k e hk hke
    obtain ⟨req, alloc⟩ := input
    have hm' := hm
    unfold allMisses at hm'
    rw [Bool.and_eq_true, decide_eq_true_iff] at hm'
    obtain ⟨hm1, hm2⟩ := hm'
    have hmiss1 : alookup
        ({ s with mDescriptorRequirements := req } : CacheState).mDescriptorSets
        ({ s with mDescriptorRequirements := req } : CacheState).mDescriptorRequirements
        = none := hm1
    cases k with
    | zero =>
      have h0 : (runCreates s ((req, alloc) :: rest)).1.getD 0 none
          = (createDescriptorSets { s with mDescriptorRequirements := req }
              alloc).entry := rfl
      rw [h0] at hke
      obtain ⟨-, hspec⟩ :=
        createDS_miss_spec { s with mDescriptorRequirements := req } alloc hmiss1
      obtain ⟨hid, -, -, -⟩ := hspec e hke
      simpa using hid
    | succ k' =>
      have hstep : (runCreates s ((req, alloc) :: rest)).1.getD (k' + 1) none
          = (runCreates (createDescriptorSets
              { s with mDescriptorRequirements := req } alloc).state rest).1.getD
              k' none := rfl
      rw [hstep] at hke
      have hk' : k' < rest.length := by
        simpa using hk
      have hcnt := createDS_count { s with mDescriptorRequirements := req } alloc
      have hlt : s.mDescriptorCacheEntryCount + 1 < U32_MOD := by
        have h1 : 0 < rest.length := Nat.lt_of_le_of_lt (Nat.zero_le k') hk'
        simp only [List.length_cons] at hb
        omega
      have hcnt' : (createDescriptorSets { s with mDescriptorRequirements := req }
          alloc).state.mDescriptorCacheEntryCount = s.mDescriptorCacheEntryCount + 1 := by
        rw [hcnt]
        exact Nat.mod_eq_of_lt hlt
      have hb' : (createDescriptorSets { s with mDescriptorRequirements := req }
          alloc).state.mDescriptorCacheEntryCount + rest.length ≤ U32_MOD := by
        rw [hcnt']
        simp only [List.length_cons] at hb
        omega
      have := ih (createDescriptorSets { s with mDescriptorRequirements := req }
        alloc).state hm2 hb' k' e hk' hke
      rw [hcnt'] at this
      rw [this]
      omega

/-- The per-id resource map keeps pairwise-distinct keys across the tail of
`bindDescriptors` (insert-if-absent followed by an in-place update). -/
theorem bindTail_nodup (s1 : CacheState) (ce : DescriptorCacheEntry)
    (pre : List VkCall) (h : (s1.mDescriptorResources.map Prod.fst).Nodup) :
    ((bindTail s1 ce pre).state.mDescriptorResources.map Prod.fst).Nodup := by
  unfold bindTail
  dsimp only
  cases h3 : alookup s1.mDescriptorResources ce.id with
  | none =>
    dsimp only
    rw [(getOrCreate_fields _).2.2.1]
    rw [keys_updateAt]
    rw [List.map_append]
    rw [List.nodup_append]
    refine ⟨h, List.nodup_singleton _, ?_⟩
    intro a ha hmem
    simp only [List.map_cons, List.map_nil, List.mem_singleton] at hmem
    rw [hmem] at ha
    exact not_mem_keys_of_alookup_none h3 ha
  | some r =>
    dsimp only
    rw [(getOrCreate_fields _).2.2.1]
    rw [keys_updateAt]
    exact h

/-- C10: every `createDescriptorSets` call stamps the newly constructed entry
with the current value of `mDescriptorCacheEntryCount` and post-increments
the counter (mod `2^32`) — even when allocation subsequently fails, so ids
are never reused after a failure; hence in any run of cache-miss creations
that does not wrap the 32-bit counter the returned entries carry pairwise
distinct ids; and `bindDescriptors` maps each id to at most one per-entry
resource tracker (distinct keys are preserved). -/
theorem C10_entry_ids (s : CacheState) (alloc : Option (List Nat)) :
    ((createDescriptorSets s alloc).state.mDescriptorCacheEntryCount
      = (s.mDescriptorCacheEntryCount + 1) % U32_MOD)
    ∧ (∀ ce, alookup s.mDescriptorSets s.mDescriptorRequirements = none →
        (createDescriptorSets s alloc).entry = some ce →
        ce.id = s.mDescriptorCacheEntryCount)
    ∧ (∀ inputs : List (DescriptorKey × Option (List Nat)),
        allMisses s inputs = true →
        s.mDescriptorCacheEntryCount + inputs.length ≤ U32_MOD →
        ∀ i j e1 e2, i < j → j < inputs.length →
        (runCreates s inputs).1.getD i none = some e1 →
        (runCreates s inputs).1.getD j none = some e2 →
        e1.id ≠ e2.id)
    ∧ ((s.mDescriptorResources.map Prod.fst).Nodup →
        ((bindDescriptors s alloc).state.mDescriptorResources.map Prod.fst).Nodup) := by
  refine ⟨createDS_count s alloc, ?_, ?_, ?_⟩
  · intro ce hmiss hce
    obtain ⟨-, hspec⟩ := createDS_miss_spec s alloc hmiss
    exact (hspec ce hce).1
  · intro inputs hm hb i j e1 e2 hij hj h1 h2
    have hi : i < inputs.length := hij.trans hj
    have hid1 := runCreates_id inputs s hm hb i e1 hi h1
    have hid2 := runCreates_id inputs s hm hb j e2 hj h2
    rw [hid1, hid2]
    omega
  · intro hnd
    unfold bindDescriptors
    dsimp only
    by_cases hfast : s.mBoundDescriptor = s.mDescriptorRequirements ∧
        s.mDescriptorSets.isEmpty = false
    · rw [if_pos hfast]
      exact hnd
    · rw [if_neg hfast]
      cases hfound : alookup s.mDescriptorSets s.mDescriptorRequirements with
      | some e =>
        dsimp only
        exact bindTail_nodup s e [] hnd
      | none =>
        dsimp only
        cases hce : (createDescriptorSets s alloc).entry with
        | none =>
          dsimp only
          rw [(createDS_fields s alloc).2.2.1]
          exact hnd
        | some ce =>
          dsimp only
          exact bindTail_nodup (createDescriptorSets s alloc).state ce
            (createDescriptorSets s alloc).calls
            (by rw [(createDS_fields s alloc).2.2.1]; exact hnd)

set_option maxRecDepth 8000 in
/-- Witness for C10: the two-miss run on the fresh cache returns entries with
ids 0 and 1, which are distinct. -/
theorem C10_entry_ids_witness :
    (runCreates state0 testInputs).1.getD 0 none = some entryRun0
    ∧ (runCreates state0 testInputs).1.getD 1 none = some entryRun1
    ∧ entryRun0.id ≠ entryRun1.id := by
  refine ⟨rfl, rfl, ?_⟩
  exact (C10_entry_ids state0 none).2.2.1 testInputs rfl (by decide) 0 1
    entryRun0 entryRun1 (by decide) (by decide) rfl rfl

end FilamentVk
